import Mathlib

/-!
# AstraCore: role-based permission and session-authorization model

A shallow embedding of `src/context/AuthContext.jsx`.  JavaScript values are
embedded as `JsVal`, plain objects as association lists, and every `async`
function of the provider is cut at its `await`s: the replies of the auth
provider and of the profile store are inputs, the requests that were issued
are outputs.  The navigation filter of `src/components/layout/Sidebar.jsx` and
`MobileMenu.jsx` and the helpers `truncateText` and `multiSort` of
`src/utils/helpers.js` follow.
-/

namespace AstraCore

/-! ## JavaScript values -/

/-- JavaScript values that a profile row or an updates object can carry.
Nested objects and arrays (such as the joined `employee` relation) are kept as
a handle: only their truthiness is ever observed by the code. -/
inductive JsVal where
  | undefined
  | null
  | bool (b : Bool)
  | num (n : Int)
  | str (s : String)
  | ref (handle : Nat)
  deriving DecidableEq, Repr

/-- ECMAScript `ToBoolean`. -/
def JsVal.truthy : JsVal → Bool
  | .undefined => false
  | .null => false
  | .bool b => b
  | .num n => n != 0
  | .str s => s != ""
  | .ref _ => true

/-- A plain object: its own enumerable properties, in insertion order. -/
abbrev JsObj := List (String × JsVal)

/-- Property read `o[k]` on a plain data object (own properties only; a missing
property reads as `undefined`). -/
def JsObj.get (o : JsObj) (k : String) : JsVal :=
  (o.lookup k).getD .undefined

/-- Property write `o[k] = v`: replaces the value of an existing key in place,
otherwise appends the key. -/
def JsObj.set : JsObj → String → JsVal → JsObj
  | [], k, v => [(k, v)]
  | (a, b) :: rest, k, v =>
    if a == k then (k, v) :: rest else (a, b) :: JsObj.set rest k v

/-- Object spread `{...target, ...src}`: every own property of `src` is written
onto `target`, in order. -/
def JsObj.spread (target src : JsObj) : JsObj :=
  src.foldl (fun acc kv => acc.set kv.1 kv.2) target

/-- Does the object have `k` as an own property? -/
def JsObj.hasKey (o : JsObj) (k : String) : Bool :=
  o.any (fun kv => kv.1 == k)

/-- The exceptions a function of the module can raise to its caller. -/
inductive JsError where
  | typeError (msg : String)
  | error (msg : String)
  deriving DecidableEq, Repr

deriving instance DecidableEq for Except

/-! ## Roles and the permission table -/

/-- The values of `USER_ROLES` (lines 18-24). -/
def USER_ROLES : List (String × String) :=
  [ ("OWNER", "owner"),
    ("MANAGER", "manager"),
    ("SITE_MANAGER", "site_manager"),
    ("ASSISTANT", "assistant"),
    ("EMPLOYEE", "employee") ]

/-- The five role strings. -/
def roleValues : List String := USER_ROLES.map Prod.snd

/-- The object literal `PERMISSIONS` (lines 27-58): its own properties. -/
def PERMISSIONS : List (String × List String) :=
  [ ("VIEW_FINANCES", ["owner", "manager"]),
    ("EDIT_FINANCES", ["owner"]),
    ("APPROVE_EXPENSES", ["owner", "manager"]),
    ("VIEW_ALL_PROJECTS", ["owner", "manager"]),
    ("EDIT_PROJECTS", ["owner", "manager", "site_manager"]),
    ("DELETE_PROJECTS", ["owner"]),
    ("VIEW_EMPLOYEES", ["owner", "manager", "assistant"]),
    ("EDIT_EMPLOYEES", ["owner", "manager"]),
    ("VIEW_SALARIES", ["owner"]),
    ("VIEW_FLEET", ["owner", "manager", "site_manager"]),
    ("EDIT_FLEET", ["owner", "manager"]),
    ("VIEW_PROPERTIES", ["owner", "manager"]),
    ("EDIT_PROPERTIES", ["owner", "manager"]),
    ("SYSTEM_SETTINGS", ["owner"]),
    ("USER_MANAGEMENT", ["owner"]),
    ("FINANCIAL_REPORTS", ["owner", "manager"]),
    ("EXPORT_DATA", ["owner", "manager"]) ]

/-- The keys written in the `PERMISSIONS` literal. -/
def permissionKeys : List String := PERMISSIONS.map Prod.fst

/-- Property names that every object literal inherits from `Object.prototype`
(ECMAScript 2023, section 20.1.3 and annex B.2.2).  Each of them reads as a
function, except `__proto__`, which reads as `Object.prototype` itself: all are
truthy and none has an `includes` method. -/
def objectPrototypeKeys : List String :=
  [ "constructor", "hasOwnProperty", "isPrototypeOf", "propertyIsEnumerable",
    "toLocaleString", "toString", "valueOf", "__proto__",
    "__defineGetter__", "__defineSetter__", "__lookupGetter__", "__lookupSetter__" ]

/-- Result of the property read `PERMISSIONS[permission]`. -/
inductive TableLookup where
  | roles (allowed : List String)
  | inherited (name : String)
  | missing
  deriving DecidableEq, Repr

/-- The read `PERMISSIONS[permission]`: an own property wins, then the
prototype chain is searched, otherwise the read gives `undefined`. -/
def permissionLookup (permission : String) : TableLookup :=
  match PERMISSIONS.lookup permission with
  | some allowed => .roles allowed
  | none =>
    if objectPrototypeKeys.contains permission then .inherited permission
    else .missing

/-- The method `Array.prototype.includes` on an array of strings
(SameValueZero). -/
def includes (allowedRoles : List String) (v : JsVal) : Bool :=
  allowedRoles.any (fun r => JsVal.str r == v)

/-- The read `profile?.role`. -/
def profileRole (profile : Option JsObj) : JsVal :=
  match profile with
  | none => .undefined
  | some p => p.get "role"

/-- The function `hasPermission` (lines 266-273), over the profile of the
current render. -/
def hasPermission (profile : Option JsObj) (permission : String) : Except JsError Bool :=
  if !(profileRole profile).truthy then .ok false
  else
    match permissionLookup permission with
    | .missing => .ok false
    | .roles allowedRoles => .ok (includes allowedRoles (profileRole profile))
    | .inherited _ => .error (.typeError "allowedRoles.includes is not a function")

/-! ## Provider state and the replies of the collaborators -/

/-- The identity `session.user` handed over by the auth provider. -/
structure User where
  id : String
  email : String
  deriving DecidableEq, Repr

/-- The three `useState` cells of `AuthProvider` (lines 61-63). -/
structure AuthState where
  user : Option User
  profile : Option JsObj
  loading : Bool
  deriving DecidableEq, Repr

/-- The state of the first render. -/
def initialState : AuthState := { user := none, profile := none, loading := true }

/-- An error object of the auth provider or of the profile store. -/
structure ApiError where
  code : String
  message : String
  deriving DecidableEq, Repr

/-- The `{ data, error }` reply of a `.single()` call on the profile store. -/
structure StoreReply where
  data : Option JsObj
  error : Option ApiError
  deriving DecidableEq, Repr

/-- A request sent to the `user_profiles` table. -/
inductive StoreRequest where
  | select (eqId : String)
  | insert (record : JsObj)
  | update (record : JsObj) (eqId : String)
  deriving DecidableEq, Repr

/-- The object returned by `signOut` and `updateProfile`. -/
structure OpResult where
  success : Bool
  error : Option String
  profile : Option JsObj
  deriving DecidableEq, Repr

/-! ## fetchUserProfile (lines 114-154) -/

/-- The literal `newProfile` (lines 131-137); `now` is `new Date().toISOString()`. -/
def newProfile (userId now : String) : JsObj :=
  [ ("id", .str userId),
    ("role", .str "employee"),
    ("first_name", .str ""),
    ("last_name", .str ""),
    ("created_at", .str now) ]

/-- What one call of `fetchUserProfile` leaves behind: the state, the requests
it sent to the store, in order, and the toast it showed.  The function has a
catch-all handler, so it never raises to its caller. -/
structure FetchRun where
  state : AuthState
  requests : List StoreRequest
  toast : Option String
  deriving DecidableEq, Repr

/-- The test `error && error.code !== 'PGRST116'` (line 125). -/
def isFetchFailure (error : Option ApiError) : Bool :=
  match error with
  | some e => e.code != "PGRST116"
  | none => false

/-- The function `fetchUserProfile`: `query` is the reply to the select,
`insert` the reply to the insert of the default profile (read only when that
insert is sent). -/
def fetchUserProfile (st : AuthState) (userId now : String)
    (query insert : StoreReply) : FetchRun :=
  if isFetchFailure query.error then
    { state := st, requests := [.select userId],
      toast := some "Chyba při načítání profilu uživatele" }
  else
    match query.data with
    | none =>
      match insert.error with
      | some _ =>
        { state := st, requests := [.select userId, .insert (newProfile userId now)],
          toast := some "Chyba při načítání profilu uživatele" }
      | none =>
        { state := { st with profile := insert.data },
          requests := [.select userId, .insert (newProfile userId now)],
          toast := none }
    | some data =>
      { state := { st with profile := some data }, requests := [.select userId],
        toast := none }

/-! ## The identity-change handler and the startup restore (lines 66-111) -/

/-- The handler passed to `onAuthStateChange` up to its `await`: the new state
and the identity id a profile fetch was started for, if any.  When that fetch
settles the handler goes on with `setLoading(false)`. -/
def onAuthStateChange (st : AuthState) (sessionUser : Option User) :
    AuthState × Option String :=
  match sessionUser with
  | some u => ({ st with user := some u }, some u.id)
  | none => ({ st with user := none, profile := none, loading := false }, none)

/-- The function `initializeAuth` from the reply of `getSession` up to its
`await`: the new state and the identity id a profile fetch was started for.
An error is caught (toast) and `finally` clears the loading flag. -/
def initializeAuth (st : AuthState) (error : Option ApiError) (sessionUser : Option User) :
    AuthState × Option String :=
  match error with
  | some _ => ({ st with loading := false }, none)
  | none =>
    match sessionUser with
    | some u => ({ st with user := some u }, some u.id)
    | none => ({ st with loading := false }, none)

/-- The continuation shared by both callers of `fetchUserProfile`: once the
fetch has settled, `setLoading(false)`. -/
def afterFetch (run : FetchRun) : AuthState :=
  { run.state with loading := false }

/-! ## signOut (lines 196-214) -/

/-- What `signOut` leaves behind. -/
structure SignOutRun where
  state : AuthState
  result : OpResult
  toast : String
  deriving DecidableEq, Repr

/-- The function `signOut`, from the provider's reply on. -/
def signOut (st : AuthState) (error : Option ApiError) : SignOutRun :=
  match error with
  | some e =>
    { state := st,
      result := { success := false, error := some e.message, profile := none },
      toast := "Chyba při odhlašování" }
  | none =>
    { state := { st with user := none, profile := none },
      result := { success := true, error := none, profile := none },
      toast := "Úspěšně odhlášen" }

/-! ## updateProfile (lines 217-242) -/

/-- The argument of `.update(...)`: `{ ...updates, updated_at: now }`. -/
def updateRecord (updates : JsObj) (now : String) : JsObj :=
  (JsObj.spread [] updates).set "updated_at" (.str now)

/-- The request `updateProfile` sends, or the exception thrown before any
request when no user is signed in (line 219). -/
def updateRequest (st : AuthState) (updates : JsObj) (now : String) :
    Except String StoreRequest :=
  match st.user with
  | none => .error "Uživatel není přihlášen"
  | some u => .ok (.update (updateRecord updates now) u.id)

/-- What `updateProfile` leaves behind. -/
structure UpdateRun where
  state : AuthState
  requests : List StoreRequest
  result : OpResult
  toast : String
  deriving DecidableEq, Repr

/-- The part of `updateProfile` that runs when the store has replied. -/
def updateProfileAfterReply (st : AuthState) (request : StoreRequest) (reply : StoreReply) : UpdateRun :=
  match reply.error with
  | some e =>
    { state := st, requests := [request],
      result := { success := false, error := some e.message, profile := none },
      toast := "Chyba při aktualizaci profilu" }
  | none =>
    { state := { st with profile := reply.data }, requests := [request],
      result := { success := true, error := none, profile := reply.data },
      toast := "Profil aktualizován" }

/-- The function `updateProfile`, with the store's reply as input. -/
def updateProfile (st : AuthState) (updates : JsObj) (now : String)
    (reply : StoreReply) : UpdateRun :=
  match updateRequest st updates now with
  | .error msg =>
    { state := st, requests := [],
      result := { success := false, error := some msg, profile := none },
      toast := "Chyba při aktualizaci profilu" }
  | .ok request => updateProfileAfterReply st request reply

/-! ## signIn (lines 157-193): its effect on the state -/

/-- The first statement of `signIn`, `setLoading(true)`, run before the
provider is called. -/
def signInBegin (st : AuthState) : AuthState := { st with loading := true }

/-- The `finally` block of `signIn`, run on every path once the provider has
replied: `setLoading(false)`.  Nothing else in `signIn` writes the state. -/
def signInEnd (st : AuthState) : AuthState := { st with loading := false }

/-! ## The provider as an event-driven machine

JavaScript runs each stretch of code between two `await`s without
interruption, so the machine takes one step per call and one per settled
promise.  `pending` holds the promises that have not settled yet. -/

/-- A promise the provider is waiting for. -/
inductive Pending where
  | getSession
  | fetchProfile (userId : String)
  | signIn
  | signOut
  | update (request : StoreRequest)
  deriving DecidableEq, Repr

/-- The state cells together with the promises in flight and a log of the
profile fetches that have settled (newest first; `true` means the fetch set the
profile). -/
structure Engine where
  st : AuthState
  pending : List Pending
  fetchLog : List (String × Bool)
  deriving DecidableEq, Repr

/-- The machine right after mount: `initializeAuth()` has been called and waits
for `getSession`. -/
def Engine.init : Engine :=
  { st := initialState, pending := [.getSession], fetchLog := [] }

/-- The auth events. -/
inductive Event where
  | sessionRestored (error : Option ApiError) (sessionUser : Option User)
  | identityChanged (sessionUser : Option User)
  | fetchSettled (userId now : String) (query insert : StoreReply)
  | signInCalled
  | signInSettled
  | signOutCalled
  | signOutSettled (error : Option ApiError)
  | updateCalled (updates : JsObj) (now : String)
  | updateSettled (request : StoreRequest) (reply : StoreReply)
  deriving DecidableEq, Repr

/-- Registers the profile fetch a caller has started, if any. -/
def startFetch (pending : List Pending) (started : Option String) : List Pending :=
  match started with
  | some userId => pending ++ [.fetchProfile userId]
  | none => pending

/-- One step of the machine; `none` when the event cannot happen (a promise
that is not in flight cannot settle). -/
def step (e : Engine) : Event → Option Engine
  | .sessionRestored error sessionUser =>
    if Pending.getSession ∈ e.pending then
      some { e with
        st := (initializeAuth e.st error sessionUser).1,
        pending := startFetch (e.pending.erase .getSession)
          (initializeAuth e.st error sessionUser).2 }
    else none
  | .identityChanged sessionUser =>
    some { e with
      st := (onAuthStateChange e.st sessionUser).1,
      pending := startFetch e.pending (onAuthStateChange e.st sessionUser).2 }
  | .fetchSettled userId now query insert =>
    if Pending.fetchProfile userId ∈ e.pending then
      some {
        st := afterFetch (fetchUserProfile e.st userId now query insert),
        pending := e.pending.erase (.fetchProfile userId),
        fetchLog :=
          (userId, (fetchUserProfile e.st userId now query insert).toast.isNone) :: e.fetchLog }
    else none
  | .signInCalled =>
    some { e with st := signInBegin e.st, pending := e.pending ++ [.signIn] }
  | .signInSettled =>
    if Pending.signIn ∈ e.pending then
      some { e with st := signInEnd e.st, pending := e.pending.erase .signIn }
    else none
  | .signOutCalled =>
    some { e with pending := e.pending ++ [.signOut] }
  | .signOutSettled error =>
    if Pending.signOut ∈ e.pending then
      some { e with st := (signOut e.st error).state, pending := e.pending.erase .signOut }
    else none
  | .updateCalled updates now =>
    match updateRequest e.st updates now with
    | .error _ => some e
    | .ok request => some { e with pending := e.pending ++ [.update request] }
  | .updateSettled request reply =>
    if Pending.update request ∈ e.pending then
      some { e with
        st := (updateProfileAfterReply e.st request reply).state,
        pending := e.pending.erase (.update request) }
    else none

/-- Runs a sequence of events. -/
def run (e : Engine) : List Event → Option Engine
  | [] => some e
  | ev :: rest =>
    match step e ev with
    | some e' => run e' rest
    | none => none

/-- The answer `hasPermission(p)` gives in a state of the machine. -/
def Engine.permits (e : Engine) (p : String) : Except JsError Bool :=
  hasPermission e.st.profile p

/-- There is no current identity. -/
def Engine.noIdentity (e : Engine) : Bool := e.st.user.isNone

/-- A profile fetch issued for the current identity has not settled yet. -/
def Engine.fetchInFlight (e : Engine) : Bool :=
  match e.st.user with
  | some u => decide (Pending.fetchProfile u.id ∈ e.pending)
  | none => false

/-- The newest settled fetch for the current identity failed. -/
def Engine.lastFetchFailed (e : Engine) : Bool :=
  match e.st.user with
  | some u => e.fetchLog.find? (fun entry => entry.1 == u.id) == some (u.id, false)
  | none => false

/-- The event hands a row to `setProfile`: a fetch that found or created a
row, or an update the store accepted with a row. -/
def Event.deliversProfile : Event → Bool
  | .fetchSettled _ _ query insert =>
    !isFetchFailure query.error &&
      (query.data.isSome || (insert.error.isNone && insert.data.isSome))
  | .updateSettled _ reply => reply.error.isNone && reply.data.isSome
  | _ => false


/-! ## String built-ins used by signIn and resetPassword -/

/-- ECMAScript `WhiteSpace` and `LineTerminator` code points, the characters
`String.prototype.trim` strips: TAB, LF, VT, FF, CR, SP, NBSP, the other
space separators (Zs), LS, PS and ZWNBSP. -/
def isWhiteSpace (c : Char) : Bool :=
  [ 9, 10, 11, 12, 13, 32, 160, 5760,
    8192, 8193, 8194, 8195, 8196, 8197, 8198, 8199, 8200, 8201, 8202,
    8232, 8233, 8239, 8287, 12288, 65279 ].contains c.toNat

/-- The method `String.prototype.trim`. -/
def trim (s : String) : String :=
  String.mk (((s.toList.dropWhile isWhiteSpace).reverse.dropWhile isWhiteSpace).reverse)

/-- Does the string begin or end with a white-space character? -/
def hasOuterWhiteSpace (s : String) : Bool :=
  s.toList.head?.any isWhiteSpace || s.toList.getLast?.any isWhiteSpace

/-- The method `String.prototype.includes` with a single argument: `needle`
occurs in `s` as a contiguous run of characters. -/
def strIncludes (s needle : String) : Bool :=
  s.toList.tails.any (fun t => needle.toList.isPrefixOf t)

/-! ## String.prototype.toLowerCase

The case tables are those of the Unicode Character Database, version 14.0:
the simple lower-case mappings of `UnicodeData.txt`, and from
`SpecialCasing.txt` the two entries that do not depend on the language, the
mapping of U+0130 and the final form of U+03A3. -/

/-- The simple lower-case mappings, in runs `(first, last, step, target)`: the
code points `first`, `first + step`, ... up to `last` map to `target`,
`target + step`, ... -/
def lowerCaseRuns : List (Nat × Nat × Nat × Nat) :=
  [ (65, 90, 1, 97), (192, 214, 1, 224), (216, 222, 1, 248), (256, 302, 2, 257),
    (306, 310, 2, 307), (313, 327, 2, 314), (330, 374, 2, 331), (376, 376, 1, 255),
    (377, 381, 2, 378), (385, 385, 1, 595), (386, 388, 2, 387), (390, 390, 1, 596),
    (391, 391, 1, 392), (393, 394, 1, 598), (395, 395, 1, 396), (398, 398, 1, 477),
    (399, 399, 1, 601), (400, 400, 1, 603), (401, 401, 1, 402), (403, 403, 1, 608),
    (404, 404, 1, 611), (406, 406, 1, 617), (407, 407, 1, 616), (408, 408, 1, 409),
    (412, 412, 1, 623), (413, 413, 1, 626), (415, 415, 1, 629), (416, 420, 2, 417),
    (422, 422, 1, 640), (423, 423, 1, 424), (425, 425, 1, 643), (428, 428, 1, 429),
    (430, 430, 1, 648), (431, 431, 1, 432), (433, 434, 1, 650), (435, 437, 2, 436),
    (439, 439, 1, 658), (440, 440, 1, 441), (444, 444, 1, 445), (452, 452, 1, 454),
    (453, 453, 1, 454), (455, 455, 1, 457), (456, 456, 1, 457), (458, 458, 1, 460),
    (459, 475, 2, 460), (478, 494, 2, 479), (497, 497, 1, 499), (498, 500, 2, 499),
    (502, 502, 1, 405), (503, 503, 1, 447), (504, 542, 2, 505), (544, 544, 1, 414),
    (546, 562, 2, 547), (570, 570, 1, 11365), (571, 571, 1, 572), (573, 573, 1, 410),
    (574, 574, 1, 11366), (577, 577, 1, 578), (579, 579, 1, 384), (580, 580, 1, 649),
    (581, 581, 1, 652), (582, 590, 2, 583), (880, 882, 2, 881), (886, 886, 1, 887),
    (895, 895, 1, 1011), (902, 902, 1, 940), (904, 906, 1, 941), (908, 908, 1, 972),
    (910, 911, 1, 973), (913, 929, 1, 945), (931, 939, 1, 963), (975, 975, 1, 983),
    (984, 1006, 2, 985), (1012, 1012, 1, 952), (1015, 1015, 1, 1016), (1017, 1017, 1, 1010),
    (1018, 1018, 1, 1019), (1021, 1023, 1, 891), (1024, 1039, 1, 1104), (1040, 1071, 1, 1072),
    (1120, 1152, 2, 1121), (1162, 1214, 2, 1163), (1216, 1216, 1, 1231), (1217, 1229, 2, 1218),
    (1232, 1326, 2, 1233), (1329, 1366, 1, 1377), (4256, 4293, 1, 11520), (4295, 4295, 1, 11559),
    (4301, 4301, 1, 11565), (5024, 5103, 1, 43888), (5104, 5109, 1, 5112), (7312, 7354, 1, 4304),
    (7357, 7359, 1, 4349), (7680, 7828, 2, 7681), (7838, 7838, 1, 223), (7840, 7934, 2, 7841),
    (7944, 7951, 1, 7936), (7960, 7965, 1, 7952), (7976, 7983, 1, 7968), (7992, 7999, 1, 7984),
    (8008, 8013, 1, 8000), (8025, 8031, 2, 8017), (8040, 8047, 1, 8032), (8072, 8079, 1, 8064),
    (8088, 8095, 1, 8080), (8104, 8111, 1, 8096), (8120, 8121, 1, 8112), (8122, 8123, 1, 8048),
    (8124, 8124, 1, 8115), (8136, 8139, 1, 8050), (8140, 8140, 1, 8131), (8152, 8153, 1, 8144),
    (8154, 8155, 1, 8054), (8168, 8169, 1, 8160), (8170, 8171, 1, 8058), (8172, 8172, 1, 8165),
    (8184, 8185, 1, 8056), (8186, 8187, 1, 8060), (8188, 8188, 1, 8179), (8486, 8486, 1, 969),
    (8490, 8490, 1, 107), (8491, 8491, 1, 229), (8498, 8498, 1, 8526), (8544, 8559, 1, 8560),
    (8579, 8579, 1, 8580), (9398, 9423, 1, 9424), (11264, 11311, 1, 11312),
    (11360, 11360, 1, 11361), (11362, 11362, 1, 619), (11363, 11363, 1, 7549),
    (11364, 11364, 1, 637), (11367, 11371, 2, 11368), (11373, 11373, 1, 593),
    (11374, 11374, 1, 625), (11375, 11375, 1, 592), (11376, 11376, 1, 594),
    (11378, 11378, 1, 11379), (11381, 11381, 1, 11382), (11390, 11391, 1, 575),
    (11392, 11490, 2, 11393), (11499, 11501, 2, 11500), (11506, 11506, 1, 11507),
    (42560, 42604, 2, 42561), (42624, 42650, 2, 42625), (42786, 42798, 2, 42787),
    (42802, 42862, 2, 42803), (42873, 42875, 2, 42874), (42877, 42877, 1, 7545),
    (42878, 42886, 2, 42879), (42891, 42891, 1, 42892), (42893, 42893, 1, 613),
    (42896, 42898, 2, 42897), (42902, 42920, 2, 42903), (42922, 42922, 1, 614),
    (42923, 42923, 1, 604), (42924, 42924, 1, 609), (42925, 42925, 1, 620),
    (42926, 42926, 1, 618), (42928, 42928, 1, 670), (42929, 42929, 1, 647),
    (42930, 42930, 1, 669), (42931, 42931, 1, 43859), (42932, 42946, 2, 42933),
    (42948, 42948, 1, 42900), (42949, 42949, 1, 642), (42950, 42950, 1, 7566),
    (42951, 42953, 2, 42952), (42960, 42960, 1, 42961), (42966, 42968, 2, 42967),
    (42997, 42997, 1, 42998), (65313, 65338, 1, 65345), (66560, 66599, 1, 66600),
    (66736, 66771, 1, 66776), (66928, 66964, 2, 66967), (66929, 66937, 2, 66968),
    (66941, 66953, 2, 66980), (66957, 66961, 2, 66996), (66965, 66965, 1, 67004),
    (68736, 68786, 1, 68800), (71840, 71871, 1, 71872), (93760, 93791, 1, 93792),
    (125184, 125217, 1, 125218) ]

/-- The code points of general category Lu (Letter, uppercase), in runs
`(first, last, step)`. -/
def upperCaseLetterRuns : List (Nat × Nat × Nat) :=
  [ (65, 90, 1), (192, 214, 1), (216, 222, 1), (256, 310, 2), (313, 327, 2), (330, 376, 2),
    (377, 381, 2), (385, 386, 1), (388, 390, 2), (391, 395, 2), (394, 394, 1), (398, 401, 1),
    (403, 404, 1), (406, 408, 1), (412, 413, 1), (415, 416, 1), (418, 422, 2), (423, 425, 2),
    (428, 430, 2), (431, 439, 2), (434, 434, 1), (440, 440, 1), (444, 444, 1), (452, 452, 1),
    (455, 455, 1), (458, 458, 1), (461, 475, 2), (478, 494, 2), (497, 497, 1), (500, 562, 2),
    (503, 503, 1), (570, 571, 1), (573, 574, 1), (577, 581, 2), (580, 590, 2), (880, 882, 2),
    (886, 886, 1), (895, 895, 1), (902, 910, 2), (905, 905, 1), (911, 939, 2), (914, 928, 2),
    (932, 938, 2), (975, 975, 1), (978, 980, 1), (984, 1006, 2), (1012, 1012, 1),
    (1015, 1017, 2), (1018, 1018, 1), (1021, 1071, 1), (1120, 1152, 2), (1162, 1216, 2),
    (1217, 1229, 2), (1232, 1326, 2), (1329, 1366, 1), (4256, 4293, 1), (4295, 4295, 1),
    (4301, 4301, 1), (5024, 5109, 1), (7312, 7354, 1), (7357, 7359, 1), (7680, 7828, 2),
    (7838, 7934, 2), (7944, 7951, 1), (7960, 7965, 1), (7976, 7983, 1), (7992, 7999, 1),
    (8008, 8013, 1), (8025, 8031, 2), (8040, 8047, 1), (8120, 8123, 1), (8136, 8139, 1),
    (8152, 8155, 1), (8168, 8172, 1), (8184, 8187, 1), (8450, 8450, 1), (8455, 8455, 1),
    (8459, 8461, 1), (8464, 8466, 1), (8469, 8469, 1), (8473, 8477, 1), (8484, 8492, 2),
    (8491, 8493, 2), (8496, 8499, 1), (8510, 8511, 1), (8517, 8517, 1), (8579, 8579, 1),
    (11264, 11311, 1), (11360, 11364, 2), (11363, 11363, 1), (11367, 11375, 2),
    (11374, 11378, 2), (11381, 11381, 1), (11390, 11490, 2), (11391, 11391, 1),
    (11499, 11501, 2), (11506, 11506, 1), (42560, 42604, 2), (42624, 42650, 2),
    (42786, 42798, 2), (42802, 42862, 2), (42873, 42877, 2), (42878, 42886, 2),
    (42891, 42893, 2), (42896, 42898, 2), (42902, 42950, 2), (42923, 42925, 2),
    (42929, 42931, 2), (42949, 42953, 2), (42960, 42960, 1), (42966, 42968, 2),
    (42997, 42997, 1), (65313, 65338, 1), (66560, 66599, 1), (66736, 66771, 1),
    (66928, 66964, 2), (66929, 66937, 2), (66941, 66953, 2), (66957, 66961, 2),
    (66965, 66965, 1), (68736, 68786, 1), (71840, 71871, 1), (93760, 93791, 1),
    (119808, 119833, 1), (119860, 119885, 1), (119912, 119937, 1), (119964, 119966, 2),
    (119967, 119967, 1), (119970, 119970, 1), (119973, 119974, 1), (119977, 119980, 1),
    (119982, 119989, 1), (120016, 120041, 1), (120068, 120069, 1), (120071, 120074, 1),
    (120077, 120084, 1), (120086, 120092, 1), (120120, 120121, 1), (120123, 120126, 1),
    (120128, 120132, 1), (120134, 120134, 1), (120138, 120144, 1), (120172, 120197, 1),
    (120224, 120249, 1), (120276, 120301, 1), (120328, 120353, 1), (120380, 120405, 1),
    (120432, 120457, 1), (120488, 120512, 1), (120546, 120570, 1), (120604, 120628, 1),
    (120662, 120686, 1), (120720, 120744, 1), (120778, 120778, 1), (125184, 125217, 1) ]

/-- The code points `isWhiteSpace` accepts. -/
def whiteSpaceCodes : List Nat :=
  [ 9, 10, 11, 12, 13, 32, 160, 5760,
    8192, 8193, 8194, 8195, 8196, 8197, 8198, 8199, 8200, 8201, 8202,
    8232, 8233, 8239, 8287, 12288, 65279 ]

/-- Does the run `first`, `first + step`, ... up to `last` contain `n`? -/
def runCovers (first last step n : Nat) : Bool :=
  decide (first ≤ n) && decide (n ≤ last) && (n - first) % step == 0

/-- The simple lower-case mapping of a code point, if it has one. -/
def lowerCaseTarget (n : Nat) : Option Nat :=
  match lowerCaseRuns.find? (fun r => runCovers r.1 r.2.1 r.2.2.1 n) with
  | some r => some (r.2.2.2 + (n - r.1))
  | none => none

/-- The simple lower-case mapping of a character; a character without one is
kept. -/
def simpleLowerCase (c : Char) : Char :=
  match lowerCaseTarget c.toNat with
  | some t => Char.ofNat t
  | none => c

/-- Does `toLowerCase` change the character? -/
def hasLowerCase (c : Char) : Bool :=
  c.toNat == 304 || (lowerCaseTarget c.toNat).isSome

/-- Is the character an upper-case letter (general category Lu)? -/
def isUpperCaseLetter (c : Char) : Bool :=
  upperCaseLetterRuns.any (fun r => runCovers r.1 r.2.1 r.2.2 c.toNat)

/-- The lower-case form of one character: U+03A3 becomes U+03C2 where the
Final_Sigma condition holds and U+03C3 elsewhere, U+0130 becomes U+0069
U+0307, every other character its simple mapping. -/
def lowerCaseOf (finalSigma : Bool) (c : Char) : List Char :=
  if c.toNat == 931 then [Char.ofNat (if finalSigma then 962 else 963)]
  else if c.toNat == 304 then [Char.ofNat 105, Char.ofNat 775]
  else [simpleLowerCase c]

/-- Lower-cases the characters `rest`, which start at index `i` of `whole`. -/
def lowerCaseFrom (finalSigma : List Char → Nat → Bool) (whole : List Char) :
    Nat → List Char → List Char
  | _, [] => []
  | i, c :: rest =>
    lowerCaseOf (finalSigma whole i) c ++ lowerCaseFrom finalSigma whole (i + 1) rest

/-- The method `String.prototype.toLowerCase`.  `finalSigma whole i` is the
Final_Sigma condition of `SpecialCasing.txt` for the character at index `i`. -/
def toLowerCase (finalSigma : List Char → Nat → Bool) (s : String) : String :=
  String.mk (lowerCaseFrom finalSigma s.toList 0 s.toList)

/-- The Final_Sigma condition of a string without U+03A3: it holds nowhere. -/
def sigmaNeverFinal : List Char → Nat → Bool := fun _ _ => false

/-- Is `t` a target of the run? -/
def isTargetOf (r : Nat × Nat × Nat × Nat) (t : Nat) : Bool :=
  runCovers r.2.2.2 (r.2.2.2 + (r.2.1 - r.1)) r.2.2.1 t

/-- The check of one run of the table: its targets are valid code points,
none is white space, none is U+0130 and none is in a run of the table. -/
def runSettled (r : Nat × Nat × Nat × Nat) : Bool :=
  decide (0 < r.2.2.1) &&
  (decide (r.2.2.2 + (r.2.1 - r.1) < 55296) ||
    (decide (57343 < r.2.2.2) && decide (r.2.2.2 + (r.2.1 - r.1) < 1114112))) &&
  whiteSpaceCodes.all (fun w => !isTargetOf r w) &&
  !isTargetOf r 304 &&
  lowerCaseRuns.all (fun r' =>
    decide (r.2.2.2 + (r.2.1 - r.1) < r'.1) || decide (r'.2.1 < r.2.2.2) ||
    (List.range ((r.2.1 - r.1) / r.2.2.1 + 1)).all
      (fun k => !runCovers r'.1 r'.2.1 r'.2.2.1 (r.2.2.2 + r.2.2.1 * k)))

/-! ## signIn (lines 157-193) -/

/-- The argument of `signInWithPassword`. -/
structure Credentials where
  email : String
  password : String
  deriving DecidableEq, Repr

/-- The reply of `signInWithPassword`: `data.user` and `error`. -/
structure SignInReply where
  user : Option User
  error : Option ApiError
  deriving DecidableEq, Repr

/-- The object returned by `signIn`. -/
structure SignInResult where
  success : Bool
  user : Option User
  error : Option String
  deriving DecidableEq, Repr

/-- What `signIn` leaves behind: the state, the credentials it submitted to the
auth provider, the requests it sent to the profile store (it sends none), its
result and the toast. -/
structure SignInRun where
  state : AuthState
  submitted : Credentials
  requests : List StoreRequest
  result : SignInResult
  toast : String
  deriving DecidableEq, Repr

/-- The message of the `Error` thrown for a provider rejection
(lines 166-177). -/
def signInErrorMessage (message : String) : String :=
  if strIncludes message "Invalid login credentials" then
    "Neplatné přihlašovací údaje"
  else if strIncludes message "Email not confirmed" then
    "Email nebyl potvrzen"
  else if strIncludes message "Too many requests" then
    "Příliš mnoho pokusů o přihlášení. Zkuste to později."
  else
    "Chyba při přihlašování"

/-- The `catch` block of `signIn` followed by `finally`: the message is shown
and returned, the loading flag is cleared. -/
def signInFailure (st : AuthState) (submitted : Credentials) (message : String) : SignInRun :=
  { state := signInEnd (signInBegin st), submitted := submitted, requests := [],
    result := { success := false, user := none, error := some message },
    toast := message }

/-- The function `signIn`.  `toLowerCase` is `String.prototype.toLowerCase`,
whose case tables belong to the JavaScript engine. -/
def signIn (toLowerCase : String → String) (st : AuthState) (email password : String)
    (reply : SignInReply) : SignInRun :=
  match reply.error with
  | some e =>
    signInFailure st { email := toLowerCase (trim email), password := password }
      (signInErrorMessage e.message)
  | none =>
    match reply.user with
    | none =>
      signInFailure st { email := toLowerCase (trim email), password := password }
        "Přihlášení selhalo"
    | some u =>
      { state := signInEnd (signInBegin st),
        submitted := { email := toLowerCase (trim email), password := password },
        requests := [],
        result := { success := true, user := some u, error := none },
        toast := "Úspěšně přihlášen" }

/-! ## resetPassword (lines 245-263) -/

/-- What `resetPassword` leaves behind. -/
structure ResetRun where
  state : AuthState
  submittedEmail : String
  redirectTo : String
  result : OpResult
  toast : String
  deriving DecidableEq, Repr

/-- The function `resetPassword`; `origin` is `window.location.origin` and
`error` the provider's reply.  No state setter is called. -/
def resetPassword (toLowerCase : String → String) (st : AuthState) (origin email : String)
    (error : Option ApiError) : ResetRun :=
  match error with
  | some e =>
    { state := st, submittedEmail := toLowerCase (trim email),
      redirectTo := origin ++ "/reset-password",
      result := { success := false, error := some e.message, profile := none },
      toast := "Chyba při odesílání emailu pro reset hesla" }
  | none =>
    { state := st, submittedEmail := toLowerCase (trim email),
      redirectTo := origin ++ "/reset-password",
      result := { success := true, error := none, profile := none },
      toast := "Email pro reset hesla byl odeslán" }

/-! ## initializeAuth as a whole -/

/-- The function `initializeAuth` from the reply of `getSession` to its end:
when a profile fetch was started, `query` and `insert` are the store's replies
to it and `finally` runs once the fetch has settled. -/
def initializeAuthRun (st : AuthState) (error : Option ApiError) (sessionUser : Option User)
    (now : String) (query insert : StoreReply) : AuthState :=
  match (initializeAuth st error sessionUser).2 with
  | some userId =>
    afterFetch (fetchUserProfile (initializeAuth st error sessionUser).1 userId now query insert)
  | none => (initializeAuth st error sessionUser).1

/-! ## A profile store that merges updates

The round trip of `updateProfile` and `fetchUserProfile` is stated over a store
that keeps one row per id, answers a select with the row of that id, and
answers an update by merging the submitted fields into the addressed row and
returning the merged row. -/

/-- The rows of `user_profiles`. -/
abbrev ProfileTable := List JsObj

/-- The filter `.eq('id', eqId)`. -/
def rowHasId (eqId : String) (row : JsObj) : Bool :=
  row.get "id" == .str eqId

/-- The reply to `.select().eq('id', eqId).single()`. -/
def storeSelect (rows : ProfileTable) (eqId : String) : StoreReply :=
  match rows.find? (rowHasId eqId) with
  | some row => { data := some row, error := none }
  | none =>
    { data := none,
      error := some { code := "PGRST116", message := "The result contains 0 rows" } }

/-- The table after `.update(record).eq('id', eqId)`. -/
def storeUpdateRows (rows : ProfileTable) (record : JsObj) (eqId : String) : ProfileTable :=
  rows.map (fun row => if rowHasId eqId row then JsObj.spread row record else row)

/-- The reply to `.update(record).eq('id', eqId).select().single()`. -/
def storeUpdateReply (rows : ProfileTable) (record : JsObj) (eqId : String) : StoreReply :=
  match rows.find? (rowHasId eqId) with
  | some row => { data := some (JsObj.spread row record), error := none }
  | none =>
    { data := none,
      error := some { code := "PGRST116", message := "The result contains 0 rows" } }

/-- The function `updateProfile` run against the merging store: the table
afterwards and what the call left behind. -/
def updateProfileOnStore (rows : ProfileTable) (st : AuthState) (updates : JsObj)
    (now : String) : ProfileTable × UpdateRun :=
  match updateRequest st updates now with
  | .ok (.update record eqId) =>
    (storeUpdateRows rows record eqId,
      updateProfile st updates now (storeUpdateReply rows record eqId))
  | _ => (rows, updateProfile st updates now { data := none, error := none })

/-- The id of the row a request addresses through its `.eq('id', ...)` filter. -/
def StoreRequest.addressedId : StoreRequest → Option String
  | .select eqId => some eqId
  | .insert _ => none
  | .update _ eqId => some eqId

/-! ## isAdmin (lines 288-290) -/

/-- The read `USER_ROLES[name]`. -/
def userRole (name : String) : JsVal :=
  match USER_ROLES.lookup name with
  | some role => .str role
  | none => .undefined

/-- The function `isAdmin`: two strict equalities on `profile?.role`. -/
def isAdmin (profile : Option JsObj) : Bool :=
  profileRole profile == userRole "OWNER" || profileRole profile == userRole "MANAGER"

/-! ## Navigation items and their filter (Sidebar.jsx, MobileMenu.jsx) -/

/-- The fields of a navigation item other than its children; `icon` is the
name of the imported icon component, `permission := none` is `null`. -/
structure NavEntry where
  id : String
  label : String
  icon : Option String
  path : Option String
  permission : Option String
  deriving DecidableEq, Repr

/-- A navigation item; `children := none` is an item without a `children`
property. -/
inductive NavItem where
  | mk (entry : NavEntry) (children : Option (List NavItem))
  deriving Repr

/-- The fields of the item. -/
def NavItem.entry : NavItem → NavEntry
  | .mk e _ => e

/-- The children of the item. -/
def NavItem.children : NavItem → Option (List NavItem)
  | .mk _ c => c

/-- The test `!item.permission`: true for `null` and for the empty string. -/
def permissionFalsy (permission : Option String) : Bool :=
  match permission with
  | none => true
  | some p => p == ""

namespace Sidebar

/-- The constant `navigationItems` of `Sidebar` (lines 20-88). -/
def navigationItems : List NavItem :=
  [ .mk { id := "dashboard", label := "Přehled", icon := some "BarChart3",
          path := some "/dashboard", permission := none } none,
    .mk { id := "projects", label := "Projekty", icon := some "FolderOpen",
          path := none, permission := some "VIEW_ALL_PROJECTS" }
      (some
        [ .mk { id := "zakazky", label := "Zakázky", icon := none,
                path := some "/zakazky", permission := none } none,
          .mk { id := "vlastni-projekty", label := "Vlastní projekty", icon := none,
                path := some "/projekty", permission := some "VIEW_ALL_PROJECTS" } none ]),
    .mk { id := "nemovitosti", label := "Nemovitosti", icon := some "Building",
          path := some "/nemovitosti", permission := some "VIEW_PROPERTIES" } none,
    .mk { id := "finance", label := "Finance", icon := some "Calculator",
          path := some "/finance", permission := some "VIEW_FINANCES" } none,
    .mk { id := "zamestnanci", label := "Zaměstnanci", icon := some "Users",
          path := some "/zamestnanci", permission := some "VIEW_EMPLOYEES" } none,
    .mk { id := "flotila", label := "Flotila & Inventář", icon := some "Car",
          path := none, permission := some "VIEW_FLEET" }
      (some
        [ .mk { id := "vozidla", label := "Vozidla", icon := none,
                path := some "/flotila/vozidla", permission := some "VIEW_FLEET" } none,
          .mk { id := "naradli", label := "Nářadí", icon := none,
                path := some "/flotila/naradli", permission := some "VIEW_FLEET" } none ]) ]

/-- The constant `bottomNavigationItems` of `Sidebar` (lines 91-99). -/
def bottomNavigationItems : List NavItem :=
  [ .mk { id := "nastaveni", label := "Nastavení", icon := some "Settings",
          path := some "/nastaveni", permission := none } none ]

/-- The callback of `items.filter` (lines 104-107). -/
def keeps (hasPermission : String → Bool) (item : NavItem) : Bool :=
  if permissionFalsy item.entry.permission then true
  else
    match item.entry.permission with
    | some p => hasPermission p
    | none => true

mutual
/-- The callback of `.map` (lines 107-110): the item with its children
filtered. -/
def filterItem (hasPermission : String → Bool) : NavItem → NavItem
  | .mk e children => .mk e (filterChildren hasPermission children)
/-- The expression `item.children ? filterByPermission(item.children) : undefined`. -/
def filterChildren (hasPermission : String → Bool) : Option (List NavItem) → Option (List NavItem)
  | none => none
  | some items => some (filterByPermission hasPermission items)
/-- The function `filterByPermission` of `Sidebar` (lines 103-111), unrolled
over the array: an item the filter callback keeps is mapped, the others are
dropped. -/
def filterByPermission (hasPermission : String → Bool) : List NavItem → List NavItem
  | [] => []
  | item :: rest =>
    if keeps hasPermission item then
      filterItem hasPermission item :: filterByPermission hasPermission rest
    else filterByPermission hasPermission rest
end

/-- The constant `visibleNavItems` (line 113). -/
def visibleNavItems (hasPermission : String → Bool) : List NavItem :=
  filterByPermission hasPermission navigationItems

/-- The constant `visibleBottomItems` (line 114). -/
def visibleBottomItems (hasPermission : String → Bool) : List NavItem :=
  filterByPermission hasPermission bottomNavigationItems

end Sidebar

namespace MobileMenu

/-- The constant `navigationItems` of `MobileMenu` (lines 18-92). -/
def navigationItems : List NavItem :=
  [ .mk { id := "dashboard", label := "Přehled", icon := some "BarChart3",
          path := some "/dashboard", permission := none } none,
    .mk { id := "projects", label := "Projekty", icon := some "FolderOpen",
          path := none, permission := some "VIEW_ALL_PROJECTS" }
      (some
        [ .mk { id := "zakazky", label := "Zakázky", icon := none,
                path := some "/zakazky", permission := none } none,
          .mk { id := "vlastni-projekty", label := "Vlastní projekty", icon := none,
                path := some "/projekty", permission := some "VIEW_ALL_PROJECTS" } none ]),
    .mk { id := "nemovitosti", label := "Nemovitosti", icon := some "Building",
          path := some "/nemovitosti", permission := some "VIEW_PROPERTIES" } none,
    .mk { id := "finance", label := "Finance", icon := some "Calculator",
          path := some "/finance", permission := some "VIEW_FINANCES" } none,
    .mk { id := "zamestnanci", label := "Zaměstnanci", icon := some "Users",
          path := some "/zamestnanci", permission := some "VIEW_EMPLOYEES" } none,
    .mk { id := "flotila", label := "Flotila & Inventář", icon := some "Car",
          path := none, permission := some "VIEW_FLEET" }
      (some
        [ .mk { id := "vozidla", label := "Vozidla", icon := none,
                path := some "/flotila/vozidla", permission := some "VIEW_FLEET" } none,
          .mk { id := "naradli", label := "Nářadí", icon := none,
                path := some "/flotila/naradli", permission := some "VIEW_FLEET" } none ]),
    .mk { id := "nastaveni", label := "Nastavení", icon := some "Settings",
          path := some "/nastaveni", permission := none } none ]

/-- The callback of `items.filter` (lines 96-99). -/
def keeps (hasPermission : String → Bool) (item : NavItem) : Bool :=
  if permissionFalsy item.entry.permission then true
  else
    match item.entry.permission with
    | some p => hasPermission p
    | none => true

mutual
/-- The callback of `.map` (lines 99-102): the item with its children
filtered. -/
def filterItem (hasPermission : String → Bool) : NavItem → NavItem
  | .mk e children => .mk e (filterChildren hasPermission children)
/-- The expression `item.children ? filterByPermission(item.children) : undefined`. -/
def filterChildren (hasPermission : String → Bool) : Option (List NavItem) → Option (List NavItem)
  | none => none
  | some items => some (filterByPermission hasPermission items)
/-- The function `filterByPermission` of `MobileMenu` (lines 95-103),
unrolled over the array. -/
def filterByPermission (hasPermission : String → Bool) : List NavItem → List NavItem
  | [] => []
  | item :: rest =>
    if keeps hasPermission item then
      filterItem hasPermission item :: filterByPermission hasPermission rest
    else filterByPermission hasPermission rest
end

/-- The constant `visibleNavItems` (line 107). -/
def visibleNavItems (hasPermission : String → Bool) : List NavItem :=
  filterByPermission hasPermission navigationItems

end MobileMenu

mutual
/-- The chains from a root to each item of the tree below `item`, `item`
included, in document order: every chain lists the entries of an item and of
its ancestors, outermost first. -/
def itemChains : NavItem → List (List NavEntry)
  | .mk e children => [e] :: (childrenChains children).map (fun chain => e :: chain)
/-- The chains of the children of an item. -/
def childrenChains : Option (List NavItem) → List (List NavEntry)
  | none => []
  | some items => listChains items
/-- The chains of a list of items. -/
def listChains : List NavItem → List (List NavEntry)
  | [] => []
  | item :: rest => itemChains item ++ listChains rest
end

/-- The ids along every chain: the ids of the items with their nesting and
order. -/
def navIds (items : List NavItem) : List (List String) :=
  (listChains items).map (fun chain => chain.map NavEntry.id)

/-- The permission of the entry is `null` or granted. -/
def nullOrGranted (hasPermission : String → Bool) (e : NavEntry) : Bool :=
  match e.permission with
  | none => true
  | some p => hasPermission p

/-- The permission of the entry is falsy (`null` or the empty string) or
granted. -/
def falsyOrGranted (hasPermission : String → Bool) (e : NavEntry) : Bool :=
  permissionFalsy e.permission || nullOrGranted hasPermission e

/-- The permission predicate a profile induces: `hasPermission(p)` returned
true. -/
def grantedTo (profile : Option JsObj) (p : String) : Bool :=
  hasPermission profile p == .ok true

/-! ## helpers.js: truncateText (lines 188-191)

A JavaScript string is a sequence of UTF-16 code units: `length` counts them
and `substring` cuts between them. -/

/-- The UTF-16 code units of a list of characters: one unit for a character of
the Basic Multilingual Plane, a surrogate pair for any other. -/
def utf16Units : List Char → List Nat
  | [] => []
  | c :: rest =>
    (if c.toNat < 65536 then [c.toNat]
      else [55296 + (c.toNat - 65536) / 1024, 56320 + (c.toNat - 65536) % 1024])
      ++ utf16Units rest

/-- The JavaScript string with the given text. -/
def utf16 (s : String) : List Nat := utf16Units s.toList

/-- The function `truncateText`; `text := none` is `null` or `undefined`,
`suffix := none` an omitted argument, which defaults to three dots. -/
def truncateText (text : Option (List Nat)) (length : Nat) (suffix : Option (List Nat)) :
    List Nat :=
  match text with
  | none => []
  | some t =>
    if t.isEmpty || decide (t.length ≤ length) then t
    else t.take length ++ suffix.getD (utf16 "...")

/-! ## helpers.js: multiSort (lines 358-371) -/

/-- One sort criterion `{ key, direction }`; `direction := none` is an omitted
direction, which defaults to `asc`. -/
structure Criterion where
  key : String
  direction : Option String
  deriving DecidableEq, Repr

/-- The test `direction === 'asc'` after the default has been applied. -/
def Criterion.ascending (c : Criterion) : Bool :=
  c.direction.getD "asc" == "asc"

/-- The comparator passed to `sort` (lines 360-370).  `resolve a key` is the
value `key.split('.').reduce((obj, k) => obj?.[k], a)` and the order of `V`
is the one `<` and `>` decide on those values. -/
def compareBy {α V : Type} [LinearOrder V] (resolve : α → String → V) :
    List Criterion → α → α → Int
  | [], _, _ => 0
  | c :: rest, a, b =>
    if resolve a c.key < resolve b c.key then (if c.ascending then -1 else 1)
    else if resolve a c.key > resolve b c.key then (if c.ascending then 1 else -1)
    else compareBy resolve rest a b

/-- The method `Array.prototype.sort` with a comparator.  ECMAScript requires
the sort to be stable, which fixes the result for a consistent comparator; it
is computed here by insertion, an element going before the first one it does
not have to follow. -/
def arraySort {α : Type} (cmp : α → α → Int) (array : List α) : List α :=
  array.insertionSort (fun a b => cmp a b ≤ 0)

/-- What `multiSort` leaves behind: the array it returns and the argument
array after the call. -/
structure MultiSortRun (α : Type) where
  returned : List α
  array : List α

/-- The function `multiSort`: the sort runs on the copy `[...array]`. -/
def multiSort {α V : Type} [LinearOrder V] (resolve : α → String → V)
    (array : List α) (criteria : List Criterion) : MultiSortRun α :=
  { returned := arraySort (compareBy resolve criteria) array, array := array }

/-- The element `a` comes before `b` in the lexicographic order of the
criteria, or ties with it: at the first criterion on which they differ, `a`
has the smaller value if the criterion is ascending and the larger one
otherwise. -/
def lexLE {α V : Type} [LinearOrder V] (resolve : α → String → V) :
    List Criterion → α → α → Prop
  | [], _, _ => True
  | c :: rest, a, b =>
    (if c.ascending then resolve a c.key < resolve b c.key
      else resolve b c.key < resolve a c.key) ∨
    (resolve a c.key = resolve b c.key ∧ lexLE resolve rest a b)

/-- The elements `a` and `b` tie on every criterion. -/
def tied {α V : Type} [LinearOrder V] (resolve : α → String → V)
    (criteria : List Criterion) (a b : α) : Bool :=
  criteria.all (fun c => decide (resolve a c.key = resolve b c.key))

/-- Sample rows for `multiSort`: a name and an age. -/
def people : List (String × Int) :=
  [("Dana", 41), ("Adam", 30), ("Cyril", 41), ("Bara", 30), ("Emil", 25)]

/-- The key `age` of a sample row; every other key resolves to 0. -/
def ageOf (row : String × Int) (key : String) : Int :=
  if key == "age" then row.2 else 0

/-! ## Sample data used by the concrete evaluations -/

/-- A signed-in identity. -/
def alice : User := { id := "a-1", email := "alice@astracore.cz" }

/-- A second identity. -/
def bob : User := { id := "b-2", email := "bob@astracore.cz" }

/-- The stored profile of `alice`, an owner. -/
def aliceRow : JsObj :=
  [ ("id", .str "a-1"), ("role", .str "owner"),
    ("first_name", .str "Alice"), ("last_name", .str "Nova") ]

/-- The stored profile of `bob`, an employee. -/
def bobRow : JsObj :=
  [ ("id", .str "b-2"), ("role", .str "employee"),
    ("first_name", .str "Bob"), ("last_name", .str "Maly") ]

/-- A timestamp. -/
def noon : String := "2024-05-01T12:00:00.000Z"

/-- The store found the row. -/
def found (row : JsObj) : StoreReply := { data := some row, error := none }

/-- The store found no row (`.single()` on an empty result). -/
def notFound : StoreReply :=
  { data := none,
    error := some { code := "PGRST116", message := "The result contains 0 rows" } }

/-- The store failed. -/
def storeDown : StoreReply :=
  { data := none, error := some { code := "08006", message := "connection failure" } }

/-- The store refused an insert because the primary key exists already. -/
def duplicateKey : StoreReply :=
  { data := none,
    error := some { code := "23505",
                    message := "duplicate key value violates unique constraint" } }

/-- A reply that is never read. -/
def unread : StoreReply := { data := none, error := none }

/-- Alice's profile is loaded, then Bob becomes the current identity while his
profile fetch is still in flight. -/
def traceSwitchIdentity : List Event :=
  [ .identityChanged (some alice),
    .fetchSettled "a-1" noon (found aliceRow) unread,
    .identityChanged (some bob) ]

/-- As `traceSwitchIdentity`, and then Bob's profile fetch fails. -/
def traceSwitchThenFail : List Event :=
  traceSwitchIdentity ++ [ .fetchSettled "b-2" noon storeDown unread ]

/-- Alice signs out while her profile fetch is in flight; the fetch settles
afterwards. -/
def traceLateFetch : List Event :=
  [ .identityChanged (some alice),
    .identityChanged none,
    .fetchSettled "a-1" noon (found aliceRow) unread ]

/-- Alice's fetch is in flight when Bob becomes current; Bob's fetch settles
first, Alice's after it. -/
def traceRace : List Event :=
  [ .identityChanged (some alice),
    .identityChanged (some bob),
    .fetchSettled "b-2" noon (found bobRow) unread,
    .fetchSettled "a-1" noon (found aliceRow) unread ]

/-- The first profile fetch of a session fails. -/
def traceFirstFetchFails : List Event :=
  [ .identityChanged (some alice),
    .fetchSettled "a-1" noon storeDown unread ]

/-- A state in which Bob, an employee, is signed in with his profile loaded. -/
def bobSignedIn : AuthState := { user := some bob, profile := some bobRow, loading := false }

/-- The machine after `traceSwitchIdentity`. -/
def afterSwitchIdentity : Engine :=
  { st := { user := some bob, profile := some aliceRow, loading := false },
    pending := [.getSession, .fetchProfile "b-2"],
    fetchLog := [("a-1", true)] }

/-- The machine after `traceSwitchThenFail`. -/
def afterSwitchThenFail : Engine :=
  { st := { user := some bob, profile := some aliceRow, loading := false },
    pending := [.getSession],
    fetchLog := [("b-2", false), ("a-1", true)] }

/-- The machine after `traceLateFetch`. -/
def afterLateFetch : Engine :=
  { st := { user := none, profile := some aliceRow, loading := false },
    pending := [.getSession],
    fetchLog := [("a-1", true)] }

/-- The machine after `traceRace`. -/
def afterRace : Engine :=
  { st := { user := some bob, profile := some aliceRow, loading := false },
    pending := [.getSession],
    fetchLog := [("a-1", true), ("b-2", true)] }

/-- The machine after `traceFirstFetchFails`. -/
def afterFirstFetchFails : Engine :=
  { st := { user := some alice, profile := none, loading := false },
    pending := [.getSession],
    fetchLog := [("a-1", false)] }

/-- The row a store that merges the submitted fields returns for Bob after
`{ role: 'owner' }` was submitted. -/
def bobRowEscalated : JsObj :=
  [ ("id", .str "b-2"), ("role", .str "owner"),
    ("first_name", .str "Bob"), ("last_name", .str "Maly"),
    ("updated_at", .str "2024-05-01T12:00:00.000Z") ]

/-- A navigation tree with one item, whose permission is the empty string. -/
def blankPermissionTree : List NavItem :=
  [ .mk { id := "napoveda", label := "Nápověda", icon := none,
          path := some "/napoveda", permission := some "" } none ]

/-! ## Auxiliary lemmas -/

theorem lookup_of_mem_keys {α β : Type} [DecidableEq α] (l : List (α × β)) (k : α)
    (h : k ∈ l.map Prod.fst) : ∃ v, l.lookup k = some v := by
  induction l with
  | nil => simp at h
  | cons hd tl ih =>
    obtain ⟨a, b⟩ := hd
    by_cases hk : k = a
    · subst hk; exact ⟨b, by simp [List.lookup]⟩
    · have : k ∈ tl.map Prod.fst := by
        simp only [List.map_cons, List.mem_cons] at h
        rcases h with h | h
        · exact absurd h hk
        · exact h
      obtain ⟨v, hv⟩ := ih this
      refine ⟨v, ?_⟩
      have hb : (k == a) = false := by simp [hk]
      simp [List.lookup, hb, hv]

theorem roleValues_truthy (r : String) (h : r ∈ roleValues) : (JsVal.str r).truthy = true := by
  have : r ≠ "" := by
    rintro rfl
    revert h
    decide
  simp [JsVal.truthy, this]

theorem includes_str (roles : List String) (r : String) :
    includes roles (.str r) = decide (r ∈ roles) := by
  induction roles with
  | nil => simp [includes]
  | cons a t ih =>
    simp only [includes, List.any_cons] at ih ⊢
    rw [ih]
    by_cases h : a = r
    · subst h; simp
    · have h2 : ¬ r = a := fun e => h e.symm
      simp [h, h2]

theorem hasPermission_none (p : String) : hasPermission none p = .ok false := by
  simp [hasPermission, profileRole, JsVal.truthy]

/-! ## C1 -/

/-- C1: under a loaded profile whose role is one of the five roles, and for a
key of the table, `hasPermission` answers exactly the membership test of the
role in the key's role list. -/
theorem hasPermission_eq_table_membership (r p : String) (profile : JsObj)
    (hr : r ∈ roleValues) (hp : p ∈ permissionKeys)
    (hrole : profile.get "role" = .str r) :
    ∃ allowed, PERMISSIONS.lookup p = some allowed ∧
      hasPermission (some profile) p = .ok (decide (r ∈ allowed)) := by
  obtain ⟨allowed, hl⟩ := lookup_of_mem_keys PERMISSIONS p hp
  refine ⟨allowed, hl, ?_⟩
  simp [hasPermission, profileRole, hrole, roleValues_truthy r hr, permissionLookup, hl,
    includes_str]

theorem hasPermission_eq_table_membership_witness :
    "site_manager" ∈ roleValues ∧ "EDIT_PROJECTS" ∈ permissionKeys ∧
    ∃ allowed, PERMISSIONS.lookup "EDIT_PROJECTS" = some allowed ∧
      hasPermission (some [("id", .str "u1"), ("role", .str "site_manager")]) "EDIT_PROJECTS"
        = .ok (decide ("site_manager" ∈ allowed)) :=
  ⟨by decide, by decide,
    hasPermission_eq_table_membership "site_manager" "EDIT_PROJECTS"
      [("id", .str "u1"), ("role", .str "site_manager")] (by decide) (by decide) (by decide)⟩

/-! ## C2 -/

/-- C2: `hasPermission('constructor')` under a loaded owner profile raises a
TypeError instead of returning false, and so do `toString` and `__proto__`;
a case variant such as `view_finances` is denied. -/
theorem hasPermission_inherited_key_raises :
    "constructor" ∉ permissionKeys ∧
    hasPermission (some [("id", .str "u1"), ("role", .str "owner")]) "constructor"
      = .error (.typeError "allowedRoles.includes is not a function") ∧
    hasPermission (some [("id", .str "u1"), ("role", .str "owner")]) "toString"
      = .error (.typeError "allowedRoles.includes is not a function") ∧
    hasPermission (some [("id", .str "u1"), ("role", .str "owner")]) "__proto__"
      = .error (.typeError "allowedRoles.includes is not a function") ∧
    hasPermission (some [("id", .str "u1"), ("role", .str "owner")]) "view_finances"
      = .ok false := by
  decide


theorem lookup_none_of_not_mem_keys {α β : Type} [DecidableEq α] (l : List (α × β)) (k : α)
    (h : k ∉ l.map Prod.fst) : l.lookup k = none := by
  induction l with
  | nil => rfl
  | cons hd tl ih =>
    obtain ⟨a, b⟩ := hd
    simp only [List.map_cons, List.mem_cons, not_or] at h
    have hb : (k == a) = false := by simp [h.1]
    simp [List.lookup, hb, ih h.2]

theorem hasPermission_unknown_not_granted (profile : Option JsObj) (p : String)
    (hp : p ∉ permissionKeys) : hasPermission profile p ≠ .ok true := by
  have hl := lookup_none_of_not_mem_keys PERMISSIONS p hp
  unfold hasPermission permissionLookup
  rw [hl]
  by_cases ht : (profileRole profile).truthy = true
  · by_cases hk : p ∈ objectPrototypeKeys
    · simp [ht, hk]
    · simp [ht, hk]
  · simp [ht]

theorem hasPermission_unknown_denied (profile : Option JsObj) (p : String)
    (hp : p ∉ permissionKeys) (hproto : p ∉ objectPrototypeKeys) :
    hasPermission profile p = .ok false := by
  have hl := lookup_none_of_not_mem_keys PERMISSIONS p hp
  unfold hasPermission permissionLookup
  rw [hl]
  by_cases ht : (profileRole profile).truthy = true
  · simp [ht, hproto]
  · simp [ht]

/-! ### The machine -/

theorem step_profile_none (e e' : Engine) (ev : Event) (hnone : e.st.profile = none)
    (hstep : step e ev = some e') (hev : ev.deliversProfile = false) :
    e'.st.profile = none := by
  cases ev with
  | sessionRestored error sessionUser =>
    simp only [step] at hstep
    split at hstep
    · cases hstep
      cases error <;> cases sessionUser <;> simp [initializeAuth, hnone]
    · cases hstep
  | identityChanged sessionUser =>
    simp only [step] at hstep
    cases hstep
    cases sessionUser <;> simp [onAuthStateChange, hnone]
  | fetchSettled userId now query insert =>
    simp only [step] at hstep
    split at hstep
    · cases hstep
      simp only [Event.deliversProfile] at hev
      simp only [afterFetch, fetchUserProfile]
      by_cases hf : isFetchFailure query.error = true
      · simp [hf, hnone]
      · simp only [hf, Bool.not_false, Bool.true_and, Bool.or_eq_false_iff] at hev
        simp only [hf]
        cases hq : query.data with
        | some d => simp [hq] at hev
        | none =>
          cases hi : insert.error with
          | some ie => simp [hnone]
          | none =>
            simp only [hq, hi, Option.isSome_none, Option.isNone_none, Bool.true_and, true_and] at hev
            cases hd : insert.data with
            | some d => simp [hd] at hev
            | none => simp
    · cases hstep
  | signInCalled =>
    simp only [step] at hstep
    cases hstep
    simpa [signInBegin] using hnone
  | signInSettled =>
    simp only [step] at hstep
    split at hstep
    · cases hstep; simpa [signInEnd] using hnone
    · cases hstep
  | signOutCalled =>
    simp only [step] at hstep
    cases hstep
    exact hnone
  | signOutSettled error =>
    simp only [step] at hstep
    split at hstep
    · cases hstep
      cases error <;> simp [signOut, hnone]
    · cases hstep
  | updateCalled updates now =>
    simp only [step] at hstep
    split at hstep
    · cases hstep; exact hnone
    · cases hstep; exact hnone
  | updateSettled request reply =>
    simp only [step] at hstep
    split at hstep
    · cases hstep
      simp only [Event.deliversProfile] at hev
      simp only [updateProfileAfterReply]
      cases he : reply.error with
      | some err => simp [hnone]
      | none =>
        simp only [he, Option.isNone_none, Bool.true_and] at hev
        cases hd : reply.data with
        | some d => simp [hd] at hev
        | none => simp
    · cases hstep

theorem run_profile_none (trace : List Event) (e e' : Engine) (hnone : e.st.profile = none)
    (hrun : run e trace = some e') (hev : ∀ ev ∈ trace, ev.deliversProfile = false) :
    e'.st.profile = none := by
  induction trace generalizing e with
  | nil =>
    simp only [run] at hrun
    cases hrun
    exact hnone
  | cons ev rest ih =>
    simp only [run] at hrun
    cases hs : step e ev with
    | none => simp [hs] at hrun
    | some e1 =>
      simp only [hs] at hrun
      exact ih e1 (step_profile_none e e1 ev hnone hs (hev ev (List.mem_cons_self _ _)))
        hrun (fun x hx => hev x (List.mem_cons_of_mem _ hx))


/-! ### Objects -/

theorem get_set (o : JsObj) (k k' : String) (v : JsVal) :
    (o.set k v).get k' = if k' = k then v else o.get k' := by
  induction o with
  | nil =>
    by_cases hk : k' = k
    · subst hk; simp [JsObj.set, JsObj.get]
    · have hb : (k' == k) = false := by simp [hk]
      simp [JsObj.set, JsObj.get, List.lookup, hb, hk]
  | cons hd tl ih =>
    obtain ⟨a, b⟩ := hd
    unfold JsObj.get at ih ⊢
    by_cases hak : a = k
    · subst hak
      simp only [JsObj.set, beq_self_eq_true, if_true, List.lookup_cons]
      by_cases hk : k' = a
      · simp [hk]
      · have hb : (k' == a) = false := by simp [hk]
        simp [hb, hk]
    · have hs : JsObj.set ((a, b) :: tl) k v = (a, b) :: JsObj.set tl k v := by
        simp [JsObj.set, hak]
      rw [hs, List.lookup_cons, List.lookup_cons]
      by_cases hk : k' = a
      · subst hk
        simp [hak]
      · have hb2 : (k' == a) = false := by simp [hk]
        simp only [hb2]
        exact ih

theorem hasKey_set (o : JsObj) (k k' : String) (v : JsVal) :
    (o.set k v).hasKey k' = (o.hasKey k' || k' == k) := by
  induction o with
  | nil => simp [JsObj.set, JsObj.hasKey, eq_comm]
  | cons hd tl ih =>
    obtain ⟨a, b⟩ := hd
    unfold JsObj.hasKey at ih ⊢
    by_cases hak : a = k
    · subst hak
      simp only [JsObj.set, beq_self_eq_true, if_true, List.any_cons]
      by_cases hk : k' = a
      · simp [hk]
      · have : ¬ a = k' := fun h => hk h.symm
        simp [hk, this]
    · have hs : JsObj.set ((a, b) :: tl) k v = (a, b) :: JsObj.set tl k v := by
        simp [JsObj.set, hak]
      rw [hs, List.any_cons, List.any_cons, ih, Bool.or_assoc]

theorem set_of_not_hasKey (o : JsObj) (k : String) (v : JsVal)
    (h : k ∉ o.map Prod.fst) : o.set k v = o ++ [(k, v)] := by
  induction o with
  | nil => rfl
  | cons hd tl ih =>
    obtain ⟨a, b⟩ := hd
    simp only [List.map_cons, List.mem_cons, not_or] at h
    have hb : (a == k) = false := by
      have : ¬ a = k := fun e => h.1 e.symm
      simp [this]
    simp [JsObj.set, hb, ih h.2]

theorem spread_of_nodup (src target : JsObj)
    (h : ((target ++ src).map Prod.fst).Nodup) : JsObj.spread target src = target ++ src := by
  induction src generalizing target with
  | nil => simp [JsObj.spread]
  | cons kv rest ih =>
    have hnot : kv.1 ∉ target.map Prod.fst := by
      intro hmem
      rw [List.map_append, List.map_cons] at h
      have := (List.nodup_append.mp h).2.2
      exact this hmem (List.mem_cons_self _ _)
    have hset : target.set kv.1 kv.2 = target ++ [kv] := set_of_not_hasKey target kv.1 kv.2 hnot
    have := ih (target ++ [kv]) (by simpa using h)
    simp only [JsObj.spread, List.foldl_cons] at this ⊢
    rw [hset, this]
    simp

/-! ## C3 -/

/-- C3 as stated fails: an earlier profile keeps granting while the new
identity's fetch is in flight, after that fetch has failed, and after the
identity is gone. -/
theorem stale_profile_grants_outside_authorized :
    (run Engine.init traceSwitchIdentity = some afterSwitchIdentity ∧
      afterSwitchIdentity.fetchInFlight = true ∧
      afterSwitchIdentity.permits "VIEW_FINANCES" = .ok true) ∧
    (run Engine.init traceSwitchThenFail = some afterSwitchThenFail ∧
      afterSwitchThenFail.lastFetchFailed = true ∧
      afterSwitchThenFail.permits "VIEW_FINANCES" = .ok true) ∧
    (run Engine.init traceLateFetch = some afterLateFetch ∧
      afterLateFetch.noIdentity = true ∧
      afterLateFetch.permits "VIEW_FINANCES" = .ok true) := by
  decide

/-- C3, amended: in every state reached from startup, `hasPermission(p)` is
false for every `p` when no profile is held in memory, and no profile is held
as long as no fetch or update of the run has delivered a row. -/
theorem permits_false_while_no_profile (trace : List Event) (e : Engine)
    (hrun : run Engine.init trace = some e)
    (h : e.st.profile = none ∨ ∀ ev ∈ trace, ev.deliversProfile = false) (p : String) :
    e.permits p = .ok false := by
  have hnone : e.st.profile = none := by
    rcases h with h | h
    · exact h
    · exact run_profile_none trace Engine.init e rfl hrun h
  unfold Engine.permits
  rw [hnone]
  exact hasPermission_none p

theorem permits_false_while_no_profile_witness :
    run Engine.init traceFirstFetchFails = some afterFirstFetchFails ∧
    afterFirstFetchFails.lastFetchFailed = true ∧
    afterFirstFetchFails.permits "VIEW_FINANCES" = .ok false :=
  ⟨by decide, by decide,
   permits_false_while_no_profile traceFirstFetchFails afterFirstFetchFails (by decide)
     (Or.inr (by decide)) "VIEW_FINANCES"⟩

/-! ## C4 -/

/-- C4 as stated fails: `updateProfile({ role: 'owner' })` by an employee sends
a record with `role: 'owner'`, and the profile the store hands back replaces
the in-memory one, role included. -/
theorem updateProfile_forwards_role :
    (updateProfile bobSignedIn [("role", .str "owner")] noon (found bobRowEscalated)).requests
      = [.update [("role", .str "owner"), ("updated_at", .str noon)] "b-2"] ∧
    profileRole bobSignedIn.profile = .str "employee" ∧
    profileRole
      (updateProfile bobSignedIn [("role", .str "owner")] noon (found bobRowEscalated)).state.profile
      = .str "owner" := by
  decide

/-- C4, amended: the record sent to the store carries every field of
`updates` unchanged, `role` included, with `updated_at` set to the current
time; after a successful call the in-memory profile is the row the store
returned. -/
theorem updateProfile_record_is_updates (st : AuthState) (u : User) (updates : JsObj)
    (now : String) (reply : StoreReply)
    (huser : st.user = some u) (hkeys : (updates.map Prod.fst).Nodup) :
    (updateProfile st updates now reply).requests = [.update (updateRecord updates now) u.id] ∧
    (∀ k, k ≠ "updated_at" →
      (updateRecord updates now).get k = updates.get k ∧
      (updateRecord updates now).hasKey k = updates.hasKey k) ∧
    (updateRecord updates now).get "updated_at" = .str now ∧
    (reply.error = none →
      (updateProfile st updates now reply).state.profile = reply.data ∧
      (updateProfile st updates now reply).result.success = true) := by
  have hspread : JsObj.spread [] updates = updates := by
    have := spread_of_nodup updates [] (by simpa using hkeys)
    simpa using this
  refine ⟨?_, ?_, ?_, ?_⟩
  · unfold updateProfile updateRequest
    rw [huser]
    cases he : reply.error <;> simp [updateProfileAfterReply, he]
  · intro k hk
    unfold updateRecord
    rw [hspread, get_set, hasKey_set, if_neg hk]
    have : (k == "updated_at") = false := by simp [hk]
    simp [this]
  · unfold updateRecord
    rw [get_set, if_pos rfl]
  · intro herr
    unfold updateProfile updateRequest
    rw [huser]
    simp [updateProfileAfterReply, herr]

theorem updateProfile_record_is_updates_witness :
    (updateProfile bobSignedIn [("role", .str "owner")] noon (found bobRowEscalated)).requests
      = [.update (updateRecord [("role", .str "owner")] noon) bob.id] ∧
    (updateRecord [("role", .str "owner")] noon).get "role" = .str "owner" :=
  ⟨(updateProfile_record_is_updates bobSignedIn bob [("role", .str "owner")] noon
      (found bobRowEscalated) rfl (by decide)).1,
   by decide⟩

/-! ## C5 -/

/-- C5 as stated fails: Alice's fetch settles after Bob's and overwrites the
profile, while the current identity stays Bob. -/
theorem late_fetch_replaces_newer_profile :
    run Engine.init traceRace = some afterRace ∧
    afterRace.st.user = some bob ∧
    afterRace.st.profile = some aliceRow ∧
    afterRace.st.profile ≠ some bobRow := by
  decide

/-- C5, amended: when A's fetch is in flight as B becomes current and B's fetch
settles first, the profile is B's row until A's fetch settles; when A's fetch
then settles with a row, that row becomes the in-memory profile while the
current identity stays B (results are applied in arrival order, without a
check against the current identity); when it settles with an error the profile
stays B's. -/
theorem fetch_results_apply_in_arrival_order (a b : User) (rowA rowB : JsObj)
    (t1 t2 : String) (i1 i2 : StoreReply) (err : ApiError) :
    (run Engine.init
        [ .identityChanged (some a), .identityChanged (some b),
          .fetchSettled b.id t1 (found rowB) i1 ]).map Engine.st
      = some { user := some b, profile := some rowB, loading := false } ∧
    (run Engine.init
        [ .identityChanged (some a), .identityChanged (some b),
          .fetchSettled b.id t1 (found rowB) i1,
          .fetchSettled a.id t2 (found rowA) i2 ]).map Engine.st
      = some { user := some b, profile := some rowA, loading := false } ∧
    (err.code ≠ "PGRST116" →
      (run Engine.init
        [ .identityChanged (some a), .identityChanged (some b),
          .fetchSettled b.id t1 (found rowB) i1,
          .fetchSettled a.id t2 { data := none, error := some err } i2 ]).map Engine.st
      = some { user := some b, profile := some rowB, loading := false }) := by
  by_cases hab : a.id = b.id
  · refine ⟨?_, ?_, ?_⟩
    · simp [run, step, Engine.init, initialState, onAuthStateChange, startFetch, afterFetch,
        fetchUserProfile, isFetchFailure, found, hab, List.erase_cons]
    · simp [run, step, Engine.init, initialState, onAuthStateChange, startFetch, afterFetch,
        fetchUserProfile, isFetchFailure, found, hab, List.erase_cons]
    · intro h
      simp [run, step, Engine.init, initialState, onAuthStateChange, startFetch, afterFetch,
        fetchUserProfile, isFetchFailure, h, found, hab, List.erase_cons]
  · have hba : ¬ b.id = a.id := fun h => hab h.symm
    refine ⟨?_, ?_, ?_⟩
    · simp [run, step, Engine.init, initialState, onAuthStateChange, startFetch, afterFetch,
        fetchUserProfile, isFetchFailure, found, hab, hba, List.erase_cons]
    · simp [run, step, Engine.init, initialState, onAuthStateChange, startFetch, afterFetch,
        fetchUserProfile, isFetchFailure, found, hab, hba, List.erase_cons]
    · intro h
      simp [run, step, Engine.init, initialState, onAuthStateChange, startFetch, afterFetch,
        fetchUserProfile, isFetchFailure, h, found, hab, hba, List.erase_cons]

theorem fetch_results_apply_in_arrival_order_witness :
    (run Engine.init traceRace).map Engine.st
      = some { user := some bob, profile := some aliceRow, loading := false } ∧
    (run Engine.init
        [ .identityChanged (some alice), .identityChanged (some bob),
          .fetchSettled bob.id noon (found bobRow) unread,
          .fetchSettled alice.id noon storeDown unread ]).map Engine.st
      = some { user := some bob, profile := some bobRow, loading := false } :=
  ⟨(fetch_results_apply_in_arrival_order alice bob aliceRow bobRow noon noon unread unread
      { code := "08006", message := "connection failure" }).2.1,
   (fetch_results_apply_in_arrival_order alice bob aliceRow bobRow noon noon unread unread
      { code := "08006", message := "connection failure" }).2.2 (by decide)⟩

/-! ## C6 -/

/-- C6 as stated fails: when the provider's signOut reports an error, the user
and the profile are still in the state afterwards. -/
theorem signOut_failure_keeps_session :
    (signOut bobSignedIn (some { code := "network", message := "Failed to fetch" })).state.user
      = some bob ∧
    (signOut bobSignedIn (some { code := "network", message := "Failed to fetch" })).state.profile
      = some bobRow ∧
    (signOut bobSignedIn (some { code := "network", message := "Failed to fetch" })).result
      = { success := false, error := some "Failed to fetch", profile := none } := by
  decide

/-- C6, amended: when the provider's signOut succeeds the state afterwards has
user = null and profile = null and the result is success: true; when it fails
the state is left as it was and the result is success: false with the error
message. -/
theorem signOut_clears_only_on_success (st : AuthState) (err : ApiError) :
    (signOut st none).state.user = none ∧
    (signOut st none).state.profile = none ∧
    (signOut st none).state.loading = st.loading ∧
    (signOut st none).result.success = true ∧
    (signOut st (some err)).state = st ∧
    (signOut st (some err)).result.success = false ∧
    (signOut st (some err)).result.error = some err.message := by
  simp [signOut]

/-! ## C7 -/

/-- C7: after the identity-change handler has processed a notification without
identity, user and profile are null and `hasPermission(p)` is false for every
`p`, from every state; no profile fetch is started. -/
theorem handler_without_identity_denies_all (st : AuthState) (p : String) :
    (onAuthStateChange st none).1.user = none ∧
    (onAuthStateChange st none).1.profile = none ∧
    (onAuthStateChange st none).2 = none ∧
    hasPermission (onAuthStateChange st none).1.profile p = .ok false := by
  simp [onAuthStateChange, hasPermission_none]

/-! ## C8 -/

/-- C8: `hasPermission(p)` is the same in any two states whose profiles carry
the same role, whatever the user, the loading flag and the other profile
fields. -/
theorem hasPermission_depends_on_role_only (s1 s2 : AuthState) (p : String)
    (hrole : profileRole s1.profile = profileRole s2.profile) :
    hasPermission s1.profile p = hasPermission s2.profile p := by
  unfold hasPermission
  rw [hrole]

theorem hasPermission_depends_on_role_only_witness :
    hasPermission bobSignedIn.profile "EDIT_PROJECTS"
      = hasPermission
          (some [("role", .str "employee"), ("first_name", .str "Eva"), ("phone", .num 7)])
          "EDIT_PROJECTS" :=
  hasPermission_depends_on_role_only bobSignedIn
    { user := none, loading := true,
      profile := some [("role", .str "employee"), ("first_name", .str "Eva"), ("phone", .num 7)] }
    "EDIT_PROJECTS" (by decide)

/-! ## C9 -/

/-- C9 as stated fails: on a duplicate-key conflict of the insert the profile
stays unset, the error toast is shown and the select is not repeated. -/
theorem duplicate_key_is_an_error :
    fetchUserProfile { user := some alice, profile := none, loading := true } "a-1" noon
        notFound duplicateKey
      = { state := { user := some alice, profile := none, loading := true },
          requests := [.select "a-1", .insert (newProfile "a-1" noon)],
          toast := some "Chyba při načítání profilu uživatele" } := by
  decide

/-- C9, amended: when the insert of the default profile is refused, with a
duplicate-key conflict or any other error, `fetchUserProfile` does not query
again: it shows the error toast, leaves the state as it was and returns
without raising. -/
theorem insert_error_leaves_state (st : AuthState) (userId now : String)
    (query insert : StoreReply) (err : ApiError)
    (hquery : isFetchFailure query.error = false) (hdata : query.data = none)
    (hinsert : insert.error = some err) :
    fetchUserProfile st userId now query insert
      = { state := st,
          requests := [.select userId, .insert (newProfile userId now)],
          toast := some "Chyba při načítání profilu uživatele" } := by
  simp [fetchUserProfile, hquery, hdata, hinsert]

theorem insert_error_leaves_state_witness :
    fetchUserProfile bobSignedIn "b-2" noon notFound duplicateKey
      = { state := bobSignedIn,
          requests := [.select "b-2", .insert (newProfile "b-2" noon)],
          toast := some "Chyba při načítání profilu uživatele" } :=
  insert_error_leaves_state bobSignedIn "b-2" noon notFound duplicateKey
    { code := "23505", message := "duplicate key value violates unique constraint" }
    (by decide) rfl rfl

/-! ## C10 -/

/-- C10: when the query answers not-found (code PGRST116, no row),
`fetchUserProfile` submits for creation a record with the identity id, role
employee and empty names, and on a successful insert the in-memory profile is
the row the store returned. -/
theorem not_found_creates_default_profile (st : AuthState) (userId now : String)
    (query insert : StoreReply) (err : ApiError)
    (herr : query.error = some err) (hcode : err.code = "PGRST116")
    (hdata : query.data = none) :
    (fetchUserProfile st userId now query insert).requests
      = [.select userId, .insert (newProfile userId now)] ∧
    (newProfile userId now).get "id" = .str userId ∧
    (newProfile userId now).get "role" = .str "employee" ∧
    (newProfile userId now).get "first_name" = .str "" ∧
    (newProfile userId now).get "last_name" = .str "" ∧
    (insert.error = none →
      (fetchUserProfile st userId now query insert).state
        = { st with profile := insert.data }) := by
  have hq : isFetchFailure query.error = false := by
    simp [isFetchFailure, herr, hcode]
  refine ⟨?_, ?_, ?_, ?_, ?_, ?_⟩
  · cases hi : insert.error <;> simp [fetchUserProfile, hq, hdata, hi]
  · simp [newProfile, JsObj.get, List.lookup]
  · simp [newProfile, JsObj.get, List.lookup]
  · simp [newProfile, JsObj.get, List.lookup]
  · simp [newProfile, JsObj.get, List.lookup]
  · intro hi
    simp [fetchUserProfile, hq, hdata, hi]

theorem not_found_creates_default_profile_witness :
    (fetchUserProfile { user := some bob, profile := none, loading := true } "b-2" noon
        notFound (found bobRow)).requests
      = [.select "b-2", .insert (newProfile "b-2" noon)] ∧
    (fetchUserProfile { user := some bob, profile := none, loading := true } "b-2" noon
        notFound (found bobRow)).state
      = { user := some bob, profile := some bobRow, loading := true } :=
  ⟨(not_found_creates_default_profile { user := some bob, profile := none, loading := true }
      "b-2" noon notFound (found bobRow)
      { code := "PGRST116", message := "The result contains 0 rows" } rfl rfl rfl).1,
   (not_found_creates_default_profile { user := some bob, profile := none, loading := true }
      "b-2" noon notFound (found bobRow)
      { code := "PGRST116", message := "The result contains 0 rows" } rfl rfl rfl).2.2.2.2.2 rfl⟩

/-! ### Strings -/

theorem strIncludes_iff_infix (s needle : String) :
    strIncludes s needle = true ↔ needle.toList <:+: s.toList := by
  unfold strIncludes
  rw [List.any_eq_true, List.infix_iff_prefix_suffix]
  constructor
  · rintro ⟨t, ht, hp⟩
    exact ⟨t, List.isPrefixOf_iff_prefix.mp hp, (List.mem_tails _ _).mp ht⟩
  · rintro ⟨t, hp, ht⟩
    exact ⟨t, (List.mem_tails _ _).mpr ht, List.isPrefixOf_iff_prefix.mpr hp⟩

theorem head?_any_of_prefix {p : Char → Bool} (r l : List Char) (hpre : r <+: l)
    (hl : l.head?.any p = false) : r.head?.any p = false := by
  cases r with
  | nil => rfl
  | cons x t =>
    obtain ⟨k, hk⟩ := hpre
    subst hk
    simpa using hl

theorem head?_dropWhile_any (p : Char → Bool) (l : List Char) :
    (l.dropWhile p).head?.any p = false := by
  have h := List.head?_dropWhile_not p l
  cases hd : (l.dropWhile p).head? with
  | none => rfl
  | some x =>
    rw [hd] at h
    simpa using h

theorem trim_no_outer_whiteSpace (s : String) : hasOuterWhiteSpace (trim s) = false := by
  unfold hasOuterWhiteSpace trim
  have hpre : ((s.toList.dropWhile isWhiteSpace).reverse.dropWhile isWhiteSpace).reverse
      <+: s.toList.dropWhile isWhiteSpace := by
    have := List.dropWhile_suffix (l := (s.toList.dropWhile isWhiteSpace).reverse) isWhiteSpace
    simpa using List.reverse_prefix.mpr this
  have h1 := head?_any_of_prefix _ _ hpre (head?_dropWhile_any isWhiteSpace s.toList)
  have h2 := head?_dropWhile_any isWhiteSpace (s.toList.dropWhile isWhiteSpace).reverse
  simp only [String.toList] at h1 h2 ⊢
  rw [h1, List.getLast?_reverse, h2]
  rfl

set_option maxRecDepth 100000 in
theorem lowerCaseRuns_settled : lowerCaseRuns.all runSettled = true := by
  decide


theorem toNat_ofNat_of_valid (n : Nat) (h : n < 55296 ∨ (57343 < n ∧ n < 1114112)) :
    (Char.ofNat n).toNat = n := by
  have hv : n.isValidChar := h
  simp [Char.ofNat, hv, Char.ofNatAux, Char.toNat]
  rfl

theorem isWhiteSpace_eq (c : Char) : isWhiteSpace c = whiteSpaceCodes.contains c.toNat := rfl

theorem runCovers_iff (first last step n : Nat) :
    runCovers first last step n = true ↔ first ≤ n ∧ n ≤ last ∧ (n - first) % step = 0 := by
  simp [runCovers, and_assoc]

theorem runCovers_index (first last step n : Nat)
    (h : runCovers first last step n = true) :
    ∃ k, k < (last - first) / step + 1 ∧ n - first = step * k := by
  rw [runCovers_iff] at h
  obtain ⟨h1, h2, h3⟩ := h
  refine ⟨(n - first) / step, ?_, ?_⟩
  · have : (n - first) / step ≤ (last - first) / step :=
      Nat.div_le_div_right (by omega)
    omega
  · exact (Nat.mul_div_cancel' (Nat.dvd_of_mod_eq_zero h3)).symm

theorem lowerCaseTarget_settled (n t : Nat) (h : lowerCaseTarget n = some t) :
    (t < 55296 ∨ (57343 < t ∧ t < 1114112)) ∧ whiteSpaceCodes.contains t = false ∧
      t ≠ 304 ∧ lowerCaseTarget t = none := by
  unfold lowerCaseTarget at h
  cases hfind : lowerCaseRuns.find? (fun r => runCovers r.1 r.2.1 r.2.2.1 n) with
  | none => simp [hfind] at h
  | some r =>
    rw [hfind] at h
    simp only [Option.some.injEq] at h
    have hmem : r ∈ lowerCaseRuns := List.mem_of_find?_eq_some hfind
    have hcov : runCovers r.1 r.2.1 r.2.2.1 n = true := by
      have := List.find?_some hfind
      exact this
    have hall := lowerCaseRuns_settled
    rw [List.all_eq_true] at hall
    have hr := hall r hmem
    unfold runSettled at hr
    simp only [Bool.and_eq_true, Bool.or_eq_true, decide_eq_true_eq, List.all_eq_true,
      Bool.not_eq_true'] at hr
    obtain ⟨⟨⟨⟨_, hvalid⟩, hws⟩, h304⟩, hruns⟩ := hr
    obtain ⟨k, hk, hnk⟩ := runCovers_index _ _ _ _ hcov
    have hc := (runCovers_iff _ _ _ _).mp hcov
    have htarget : isTargetOf r t = true := by
      unfold isTargetOf
      rw [runCovers_iff]
      refine ⟨by omega, by omega, ?_⟩
      have : t - r.2.2.2 = n - r.1 := by omega
      rw [this]
      exact hc.2.2
    refine ⟨?_, ?_, ?_, ?_⟩
    · rcases hvalid with hv | hv
      · exact Or.inl (by omega)
      · exact Or.inr ⟨by omega, by omega⟩
    · by_contra hcon
      have hcon' : whiteSpaceCodes.contains t = true := by simpa using hcon
      have hm : t ∈ whiteSpaceCodes := by simpa using hcon'
      have := hws t hm
      rw [htarget] at this
      exact Bool.noConfusion this
    · intro h304'
      rw [h304'] at htarget
      rw [htarget] at h304
      exact Bool.noConfusion h304
    · unfold lowerCaseTarget
      have hnone : lowerCaseRuns.find? (fun r => runCovers r.1 r.2.1 r.2.2.1 t) = none := by
        rw [List.find?_eq_none]
        intro r' hr'
        rcases hruns r' hr' with (hlt | hlt) | helem
        · intro hcov'
          have := (runCovers_iff _ _ _ _).mp hcov'
          omega
        · intro hcov'
          have := (runCovers_iff _ _ _ _).mp hcov'
          omega
        · have hk' : k ∈ List.range ((r.2.1 - r.1) / r.2.2.1 + 1) := List.mem_range.mpr hk
          have := helem k hk'
          have ht : t = r.2.2.2 + r.2.2.1 * k := by omega
          rw [ht]
          simp [this]
      rw [hnone]


theorem simpleLowerCase_settled (c : Char) (h304 : (c.toNat == 304) = false) :
    hasLowerCase (simpleLowerCase c) = false ∧
      (isWhiteSpace c = false → isWhiteSpace (simpleLowerCase c) = false) := by
  unfold simpleLowerCase
  cases ht : lowerCaseTarget c.toNat with
  | none =>
    simp only []
    exact ⟨by simp [hasLowerCase, h304, ht], fun h => h⟩
  | some t =>
    simp only []
    obtain ⟨hvalid, hws, hne, hnone⟩ := lowerCaseTarget_settled c.toNat t ht
    have hnat := toNat_ofNat_of_valid t hvalid
    refine ⟨?_, fun _ => ?_⟩
    · simp [hasLowerCase, hnat, hne, hnone]
    · rw [isWhiteSpace_eq, hnat, hws]

theorem lowerCaseOf_settled (final : Bool) (c t : Char) (ht : t ∈ lowerCaseOf final c) :
    hasLowerCase t = false ∧ (isWhiteSpace c = false → isWhiteSpace t = false) := by
  unfold lowerCaseOf at ht
  by_cases hsigma : (c.toNat == 931) = true
  · rw [if_pos hsigma] at ht
    have hcases : t = Char.ofNat 962 ∨ t = Char.ofNat 963 := by
      cases final <;> simp at ht <;> simp [ht]
    have h962 : hasLowerCase (Char.ofNat 962) = false ∧ isWhiteSpace (Char.ofNat 962) = false := by
      decide
    have h963 : hasLowerCase (Char.ofNat 963) = false ∧ isWhiteSpace (Char.ofNat 963) = false := by
      decide
    rcases hcases with h | h
    · rw [h]; exact ⟨h962.1, fun _ => h962.2⟩
    · rw [h]; exact ⟨h963.1, fun _ => h963.2⟩
  · rw [if_neg hsigma] at ht
    by_cases hdot : (c.toNat == 304) = true
    · rw [if_pos hdot] at ht
      have hcases : t = Char.ofNat 105 ∨ t = Char.ofNat 775 := by simpa using ht
      have h105 : hasLowerCase (Char.ofNat 105) = false ∧ isWhiteSpace (Char.ofNat 105) = false := by
        decide
      have h775 : hasLowerCase (Char.ofNat 775) = false ∧ isWhiteSpace (Char.ofNat 775) = false := by
        decide
      rcases hcases with h | h
      · rw [h]; exact ⟨h105.1, fun _ => h105.2⟩
      · rw [h]; exact ⟨h775.1, fun _ => h775.2⟩
    · rw [if_neg hdot] at ht
      have : t = simpleLowerCase c := by simpa using ht
      rw [this]
      exact simpleLowerCase_settled c (by simpa using hdot)

theorem lowerCaseOf_ne_nil (final : Bool) (c : Char) : lowerCaseOf final c ≠ [] := by
  unfold lowerCaseOf
  split
  · simp
  · split <;> simp

theorem mem_lowerCaseFrom (finalSigma : List Char → Nat → Bool) (whole : List Char)
    (l : List Char) (i : Nat) (t : Char) (ht : t ∈ lowerCaseFrom finalSigma whole i l) :
    ∃ c ∈ l, ∃ final, t ∈ lowerCaseOf final c := by
  induction l generalizing i with
  | nil => simp [lowerCaseFrom] at ht
  | cons c rest ih =>
    rw [lowerCaseFrom, List.mem_append] at ht
    rcases ht with h | h
    · exact ⟨c, List.mem_cons_self _ _, _, h⟩
    · obtain ⟨c', hc', final, hf⟩ := ih (i + 1) h
      exact ⟨c', List.mem_cons_of_mem _ hc', final, hf⟩

theorem lowerCaseFrom_eq_nil (finalSigma : List Char → Nat → Bool) (whole : List Char)
    (l : List Char) (i : Nat) (h : lowerCaseFrom finalSigma whole i l = []) : l = [] := by
  cases l with
  | nil => rfl
  | cons c rest =>
    rw [lowerCaseFrom, List.append_eq_nil] at h
    exact absurd h.1 (lowerCaseOf_ne_nil _ _)

theorem head?_lowerCaseFrom (finalSigma : List Char → Nat → Bool) (whole : List Char)
    (l : List Char) (i : Nat) (t : Char)
    (ht : (lowerCaseFrom finalSigma whole i l).head? = some t) :
    ∃ c, l.head? = some c ∧ ∃ final, t ∈ lowerCaseOf final c := by
  cases l with
  | nil => simp [lowerCaseFrom] at ht
  | cons c rest =>
    refine ⟨c, rfl, finalSigma whole i, ?_⟩
    rw [lowerCaseFrom] at ht
    cases hl : lowerCaseOf (finalSigma whole i) c with
    | nil => exact absurd hl (lowerCaseOf_ne_nil _ _)
    | cons x xs =>
      rw [hl] at ht
      simp only [List.cons_append, List.head?_cons, Option.some.injEq] at ht
      rw [← ht]
      exact List.mem_cons_self _ _

theorem getLast?_lowerCaseFrom (finalSigma : List Char → Nat → Bool) (whole : List Char)
    (l : List Char) (i : Nat) (t : Char)
    (ht : (lowerCaseFrom finalSigma whole i l).getLast? = some t) :
    ∃ c, l.getLast? = some c ∧ ∃ final, t ∈ lowerCaseOf final c := by
  induction l generalizing i with
  | nil => simp [lowerCaseFrom] at ht
  | cons c rest ih =>
    rw [lowerCaseFrom] at ht
    by_cases hrest : rest = []
    · subst hrest
      simp only [lowerCaseFrom, List.append_nil] at ht
      exact ⟨c, rfl, finalSigma whole i, List.mem_of_getLast?_eq_some ht⟩
    · have hne : lowerCaseFrom finalSigma whole (i + 1) rest ≠ [] :=
        fun h => hrest (lowerCaseFrom_eq_nil _ _ _ _ h)
      rw [List.getLast?_append_of_ne_nil _ hne] at ht
      obtain ⟨c', hc', hf⟩ := ih (i + 1) ht
      refine ⟨c', ?_, hf⟩
      rw [List.getLast?_cons, hc']
      rfl


theorem toLowerCase_no_lowerCase (finalSigma : List Char → Nat → Bool) (s : String)
    (t : Char) (ht : t ∈ (toLowerCase finalSigma s).toList) : hasLowerCase t = false := by
  simp only [toLowerCase, String.toList] at ht
  obtain ⟨c, _, final, hf⟩ := mem_lowerCaseFrom finalSigma _ _ 0 t ht
  exact (lowerCaseOf_settled final c t hf).1

theorem toLowerCase_outer (finalSigma : List Char → Nat → Bool) (s : String)
    (h : hasOuterWhiteSpace s = false) : hasOuterWhiteSpace (toLowerCase finalSigma s) = false := by
  unfold hasOuterWhiteSpace at h ⊢
  simp only [Bool.or_eq_false_iff] at h ⊢
  simp only [toLowerCase, String.toList] at h ⊢
  constructor
  · cases hh : (lowerCaseFrom finalSigma s.data 0 s.data).head? with
    | none => rfl
    | some t =>
      obtain ⟨c, hc, final, hf⟩ := head?_lowerCaseFrom finalSigma _ _ 0 t hh
      have hcw : isWhiteSpace c = false := by simpa [hc] using h.1
      simpa using (lowerCaseOf_settled final c t hf).2 hcw
  · cases hh : (lowerCaseFrom finalSigma s.data 0 s.data).getLast? with
    | none => rfl
    | some t =>
      obtain ⟨c, hc, final, hf⟩ := getLast?_lowerCaseFrom finalSigma _ _ 0 t hh
      have hcw : isWhiteSpace c = false := by simpa [hc] using h.2
      simpa using (lowerCaseOf_settled final c t hf).2 hcw

theorem lowerCaseOf_of_not_hasLowerCase (final : Bool) (c : Char)
    (h : hasLowerCase c = false) : lowerCaseOf final c = [c] := by
  unfold hasLowerCase at h
  simp only [Bool.or_eq_false_iff] at h
  have h931 : (c.toNat == 931) = false := by
    by_contra hcon
    have hc : c.toNat = 931 := by simpa using hcon
    have hsome : (lowerCaseTarget 931).isSome = true := by decide
    rw [hc, hsome] at h
    exact Bool.noConfusion h.2
  have hnone : lowerCaseTarget c.toNat = none := by
    cases ht : lowerCaseTarget c.toNat with
    | none => rfl
    | some t => rw [ht] at h; exact Bool.noConfusion h.2
  simp [lowerCaseOf, h931, h.1, simpleLowerCase, hnone]

/-! ### The merging store -/

theorem updateRecord_first_name (x now : String) :
    updateRecord [("first_name", .str x)] now
      = [("first_name", .str x), ("updated_at", .str now)] := by
  simp [updateRecord, JsObj.spread, JsObj.set]

theorem get_merge_first_name (row : JsObj) (x now k : String) :
    (JsObj.spread row [("first_name", .str x), ("updated_at", .str now)]).get k
      = if k = "updated_at" then .str now
        else if k = "first_name" then .str x else row.get k := by
  simp only [JsObj.spread, List.foldl_cons, List.foldl_nil]
  rw [get_set, get_set]

theorem find?_storeUpdateRows (rows : ProfileTable) (row : JsObj) (x now eqId : String)
    (hrow : rows.find? (rowHasId eqId) = some row) :
    (storeUpdateRows rows [("first_name", .str x), ("updated_at", .str now)] eqId).find?
        (rowHasId eqId)
      = some (JsObj.spread row [("first_name", .str x), ("updated_at", .str now)]) := by
  have hkeep : ∀ r : JsObj,
      rowHasId eqId (JsObj.spread r [("first_name", .str x), ("updated_at", .str now)])
        = rowHasId eqId r := by
    intro r
    unfold rowHasId
    rw [get_merge_first_name]
    simp
  have hcomp : (rowHasId eqId ∘ fun r : JsObj =>
      if rowHasId eqId r then
        JsObj.spread r [("first_name", .str x), ("updated_at", .str now)] else r)
      = rowHasId eqId := by
    funext r
    by_cases h : rowHasId eqId r = true
    · simp [Function.comp, h, hkeep]
    · simp [Function.comp, h]
  unfold storeUpdateRows
  rw [List.find?_map, hcomp, hrow]
  have hid : rowHasId eqId row = true := List.find?_some hrow
  simp [hid]

/-! ## C11 -/

/-- C11: when the profile query fails with an error other than not-found,
`fetchUserProfile` sends the one select and nothing else, shows the error and
leaves the state as it was; called by the identity-change handler for a user,
it leaves that user in the state, unlike the unauthenticated state. -/
theorem query_failure_keeps_identity (st : AuthState) (u : User) (now : String)
    (query insert : StoreReply) (err : ApiError)
    (herr : query.error = some err) (hcode : err.code ≠ "PGRST116") :
    fetchUserProfile st u.id now query insert
      = { state := st, requests := [.select u.id],
          toast := some "Chyba při načítání profilu uživatele" } ∧
    (afterFetch (fetchUserProfile (onAuthStateChange st (some u)).1 u.id now query insert)).user
      = some u ∧
    (afterFetch (fetchUserProfile (onAuthStateChange st (some u)).1 u.id now query insert)).user
      ≠ (onAuthStateChange st none).1.user := by
  have hf : isFetchFailure query.error = true := by
    simp [isFetchFailure, herr, hcode]
  refine ⟨?_, ?_, ?_⟩
  · simp [fetchUserProfile, hf]
  · simp [fetchUserProfile, hf, afterFetch, onAuthStateChange]
  · simp [fetchUserProfile, hf, afterFetch, onAuthStateChange]

theorem query_failure_keeps_identity_witness :
    fetchUserProfile { user := some alice, profile := none, loading := true } alice.id noon
        storeDown unread
      = { state := { user := some alice, profile := none, loading := true },
          requests := [.select "a-1"],
          toast := some "Chyba při načítání profilu uživatele" } :=
  (query_failure_keeps_identity { user := some alice, profile := none, loading := true } alice
    noon storeDown unread { code := "08006", message := "connection failure" } rfl
    (by decide)).1

/-! ## C12 -/

/-- C12: whenever `updateProfile` returns a failure, the state is what it was
before the call and the result carries the error message: the store's message
when the store rejected the update, and the not-signed-in message, with no
request sent, when no user is signed in. -/
theorem updateProfile_failure_leaves_state (st : AuthState) (updates : JsObj) (now : String)
    (reply : StoreReply)
    (hfail : (updateProfile st updates now reply).result.success = false) :
    (updateProfile st updates now reply).state = st ∧
    (updateProfile st updates now reply).result.profile = none ∧
    (st.user = none →
      (updateProfile st updates now reply).requests = [] ∧
      (updateProfile st updates now reply).result.error = some "Uživatel není přihlášen") ∧
    (st.user ≠ none →
      ∃ e, reply.error = some e ∧
        (updateProfile st updates now reply).result.error = some e.message) := by
  cases hu : st.user with
  | none =>
    simp [updateProfile, updateRequest, hu]
  | some u =>
    cases he : reply.error with
    | none =>
      simp [updateProfile, updateRequest, hu, updateProfileAfterReply, he] at hfail
    | some e =>
      simp [updateProfile, updateRequest, hu, updateProfileAfterReply, he]

theorem updateProfile_failure_leaves_state_witness :
    (updateProfile bobSignedIn [("first_name", .str "Robert")] noon storeDown).state
      = bobSignedIn ∧
    (updateProfile initialState [("first_name", .str "Robert")] noon unread).state
      = initialState :=
  ⟨(updateProfile_failure_leaves_state bobSignedIn [("first_name", .str "Robert")] noon
      storeDown (by decide)).1,
   (updateProfile_failure_leaves_state initialState [("first_name", .str "Robert")] noon
      unread (by decide)).1⟩

/-! ## C13 -/

/-- C13: over a store that merges the submitted fields into the addressed row
and returns it, `updateProfile({first_name: X})` by a signed-in user whose row
exists succeeds, and a fresh `fetchUserProfile` for that user then loads a
profile whose first_name is X and whose role is the role the row had before. -/
theorem update_then_fetch_round_trip (rows : ProfileTable) (st st2 : AuthState) (u : User)
    (row : JsObj) (x now now2 : String) (insert : StoreReply)
    (huser : st.user = some u) (hrow : rows.find? (rowHasId u.id) = some row) :
    (updateProfileOnStore rows st [("first_name", .str x)] now).2.result.success = true ∧
    (fetchUserProfile st2 u.id now2
        (storeSelect (updateProfileOnStore rows st [("first_name", .str x)] now).1 u.id)
        insert).state.profile
      = some (JsObj.spread row (updateRecord [("first_name", .str x)] now)) ∧
    (JsObj.spread row (updateRecord [("first_name", .str x)] now)).get "first_name"
      = .str x ∧
    (JsObj.spread row (updateRecord [("first_name", .str x)] now)).get "role"
      = row.get "role" := by
  have hrec := updateRecord_first_name x now
  have hreq : updateRequest st [("first_name", .str x)] now
      = .ok (.update [("first_name", .str x), ("updated_at", .str now)] u.id) := by
    simp [updateRequest, huser, hrec]
  have hfind := find?_storeUpdateRows rows row x now u.id hrow
  refine ⟨?_, ?_, ?_, ?_⟩
  · simp [updateProfileOnStore, hreq, updateProfile, updateProfileAfterReply,
      storeUpdateReply, hrow]
  · simp [updateProfileOnStore, hreq, storeSelect, hfind, fetchUserProfile, isFetchFailure,
      hrec]
  · rw [hrec, get_merge_first_name]
    simp
  · rw [hrec, get_merge_first_name]
    simp

theorem update_then_fetch_round_trip_witness :
    (fetchUserProfile initialState bob.id noon
        (storeSelect
          (updateProfileOnStore [aliceRow, bobRow] bobSignedIn [("first_name", .str "Robert")]
            noon).1 bob.id)
        unread).state.profile
      = some (JsObj.spread bobRow (updateRecord [("first_name", .str "Robert")] noon)) ∧
    JsObj.spread bobRow (updateRecord [("first_name", .str "Robert")] noon)
      = [ ("id", .str "b-2"), ("role", .str "employee"), ("first_name", .str "Robert"),
          ("last_name", .str "Maly"), ("updated_at", .str noon) ] :=
  ⟨(update_then_fetch_round_trip [aliceRow, bobRow] bobSignedIn initialState bob bobRow
      "Robert" noon noon unread rfl (by decide)).2.1,
   by decide⟩

/-! ## C14 -/

/-- C14: for every updates object, one carrying its own `id` included, the
only request `updateProfile` sends addresses the row whose id is the id of
the signed-in user. -/
theorem updateProfile_addresses_own_row (st : AuthState) (u : User) (updates : JsObj)
    (now : String) (reply : StoreReply) (huser : st.user = some u) :
    (updateProfile st updates now reply).requests.map StoreRequest.addressedId
      = [some u.id] := by
  cases he : reply.error <;>
    simp [updateProfile, updateRequest, huser, updateProfileAfterReply, he,
      StoreRequest.addressedId]

theorem updateProfile_addresses_own_row_witness :
    (updateProfile bobSignedIn [("id", .str "a-1"), ("role", .str "owner")] noon
        (found bobRow)).requests.map StoreRequest.addressedId
      = [some "b-2"] :=
  updateProfile_addresses_own_row bobSignedIn bob [("id", .str "a-1"), ("role", .str "owner")]
    noon (found bobRow) rfl

/-! ## C15 -/

/-- C15: for a provider rejection with message m, `signIn` returns success:
false with one of four fixed messages, chosen by the first of the three
substring tests that holds, in the order invalid credentials, unconfirmed
email, too many requests, and the generic message when none holds; a message
naming invalid credentials or an unconfirmed email never gets the generic one. -/
theorem signIn_rejection_message (toLowerCase : String → String) (st : AuthState)
    (email password : String) (user : Option User) (err : ApiError) :
    (signIn toLowerCase st email password { user := user, error := some err }).result.success
      = false ∧
    (signIn toLowerCase st email password { user := user, error := some err }).result.user
      = none ∧
    (strIncludes err.message "Invalid login credentials" = true →
      (signIn toLowerCase st email password { user := user, error := some err }).result.error
        = some "Neplatné přihlašovací údaje") ∧
    (strIncludes err.message "Invalid login credentials" = false →
      strIncludes err.message "Email not confirmed" = true →
      (signIn toLowerCase st email password { user := user, error := some err }).result.error
        = some "Email nebyl potvrzen") ∧
    (strIncludes err.message "Invalid login credentials" = false →
      strIncludes err.message "Email not confirmed" = false →
      strIncludes err.message "Too many requests" = true →
      (signIn toLowerCase st email password { user := user, error := some err }).result.error
        = some "Příliš mnoho pokusů o přihlášení. Zkuste to později.") ∧
    (strIncludes err.message "Invalid login credentials" = false →
      strIncludes err.message "Email not confirmed" = false →
      strIncludes err.message "Too many requests" = false →
      (signIn toLowerCase st email password { user := user, error := some err }).result.error
        = some "Chyba při přihlašování") ∧
    (strIncludes err.message "Invalid login credentials" = true ∨
      strIncludes err.message "Email not confirmed" = true →
      (signIn toLowerCase st email password { user := user, error := some err }).result.error
        ≠ some "Chyba při přihlašování") := by
  have hne1 : ("Neplatné přihlašovací údaje" : String) ≠ "Chyba při přihlašování" := by decide
  have hne2 : ("Email nebyl potvrzen" : String) ≠ "Chyba při přihlašování" := by decide
  refine ⟨?_, ?_, ?_, ?_, ?_, ?_, ?_⟩
  · simp [signIn, signInFailure]
  · simp [signIn, signInFailure]
  · intro h1
    simp [signIn, signInFailure, signInErrorMessage, h1]
  · intro h1 h2
    simp [signIn, signInFailure, signInErrorMessage, h1, h2]
  · intro h1 h2 h3
    simp [signIn, signInFailure, signInErrorMessage, h1, h2, h3]
  · intro h1 h2 h3
    simp [signIn, signInFailure, signInErrorMessage, h1, h2, h3]
  · intro h
    by_cases h1 : strIncludes err.message "Invalid login credentials" = true
    · simp [signIn, signInFailure, signInErrorMessage, h1, hne1]
    · have h2 : strIncludes err.message "Email not confirmed" = true := by
        rcases h with h | h
        · exact absurd h h1
        · exact h
      simp [signIn, signInFailure, signInErrorMessage, h1, h2, hne2]

theorem signIn_rejection_message_witness :
    (signIn (toLowerCase sigmaNeverFinal) initialState "eva@astracore.cz" "heslo"
        { user := none,
          error := some { code := "invalid_credentials",
                          message := "Invalid login credentials" } }).result.error
      = some "Neplatné přihlašovací údaje" ∧
    (signIn (toLowerCase sigmaNeverFinal) initialState "eva@astracore.cz" "heslo"
        { user := none,
          error := some { code := "email_not_confirmed",
                          message := "Email not confirmed" } }).result.error
      = some "Email nebyl potvrzen" ∧
    (signIn (toLowerCase sigmaNeverFinal) initialState "eva@astracore.cz" "heslo"
        { user := none,
          error := some { code := "over_request_rate_limit",
                          message := "Too many requests" } }).result.error
      = some "Příliš mnoho pokusů o přihlášení. Zkuste to později." ∧
    (signIn (toLowerCase sigmaNeverFinal) initialState "eva@astracore.cz" "heslo"
        { user := none,
          error := some { code := "unexpected_failure",
                          message := "Database error" } }).result.error
      = some "Chyba při přihlašování" :=
  ⟨(signIn_rejection_message (toLowerCase sigmaNeverFinal) initialState "eva@astracore.cz" "heslo" none
      { code := "invalid_credentials", message := "Invalid login credentials" }).2.2.1
      (by decide),
   (signIn_rejection_message (toLowerCase sigmaNeverFinal) initialState "eva@astracore.cz" "heslo" none
      { code := "email_not_confirmed", message := "Email not confirmed" }).2.2.2.1
      (by decide) (by decide),
   (signIn_rejection_message (toLowerCase sigmaNeverFinal) initialState "eva@astracore.cz" "heslo" none
      { code := "over_request_rate_limit", message := "Too many requests" }).2.2.2.2.1
      (by decide) (by decide) (by decide),
   (signIn_rejection_message (toLowerCase sigmaNeverFinal) initialState "eva@astracore.cz" "heslo" none
      { code := "unexpected_failure", message := "Database error" }).2.2.2.2.2.1
      (by decide) (by decide) (by decide)⟩

/-! ## C16 -/

/-- C16 as stated fails: for the email `ℂ@astracore.cz` the submitted email
still holds the upper-case letter U+2102 (general category Lu), which has no
lower-case form. -/
theorem upper_case_letter_without_lower_form_is_kept :
    (signIn (toLowerCase sigmaNeverFinal) initialState "ℂ@astracore.cz" "heslo"
        { user := some bob, error := none }).submitted.email = "ℂ@astracore.cz" ∧
    Char.ofNat 8450 ∈ "ℂ@astracore.cz".toList ∧
    isUpperCaseLetter (Char.ofNat 8450) = true ∧
    hasLowerCase (Char.ofNat 8450) = false := by
  decide

/-- C16, amended: the email `signIn` submits to the provider is
`toLowerCase(trim(e))` and the password is passed through unchanged; the
submitted email has no leading or trailing white space and no character that
has a lower-case form, so that an upper-case letter remains only if Unicode
gives it no lower-case form. -/
theorem signIn_submits_normalized_email (finalSigma : List Char → Nat → Bool)
    (st : AuthState) (email password : String) (reply : SignInReply) :
    (signIn (toLowerCase finalSigma) st email password reply).submitted
      = { email := toLowerCase finalSigma (trim email), password := password } ∧
    hasOuterWhiteSpace (trim email) = false ∧
    hasOuterWhiteSpace
      (signIn (toLowerCase finalSigma) st email password reply).submitted.email = false ∧
    (∀ c ∈ (signIn (toLowerCase finalSigma) st email password reply).submitted.email.toList,
      hasLowerCase c = false) ∧
    (∀ c ∈ (signIn (toLowerCase finalSigma) st email password reply).submitted.email.toList,
      isUpperCaseLetter c = true → ∀ final, lowerCaseOf final c = [c]) := by
  have hsub : (signIn (toLowerCase finalSigma) st email password reply).submitted
      = { email := toLowerCase finalSigma (trim email), password := password } := by
    unfold signIn
    cases reply.error with
    | some e => rfl
    | none =>
      cases reply.user with
      | none => rfl
      | some u => rfl
  refine ⟨hsub, trim_no_outer_whiteSpace email, ?_, ?_, ?_⟩
  · rw [hsub]
    exact toLowerCase_outer finalSigma _ (trim_no_outer_whiteSpace email)
  · rw [hsub]
    exact fun c hc => toLowerCase_no_lowerCase finalSigma _ c hc
  · rw [hsub]
    exact fun c hc _ final =>
      lowerCaseOf_of_not_hasLowerCase final c (toLowerCase_no_lowerCase finalSigma _ c hc)

theorem signIn_normalizes_accented_email :
    (signIn (toLowerCase sigmaNeverFinal) initialState "  Éva.ŠÍpkovÁ@Astra.CZ " "S3cret Heslo"
        { user := some bob, error := none }).submitted
      = { email := "éva.šípková@astra.cz", password := "S3cret Heslo" } := by
  decide

/-! ## C17 -/

/-- C17: when the provider rejects `signIn` while no identity is present, the
caller gets a failure result, user and profile are still null and `signIn` has
sent no request to the profile store. -/
theorem rejected_signIn_stays_unauthenticated (toLowerCase : String → String)
    (st : AuthState) (email password : String) (reply : SignInReply) (err : ApiError)
    (huser : st.user = none) (hprofile : st.profile = none)
    (hrej : reply.error = some err) :
    (signIn toLowerCase st email password reply).result.success = false ∧
    (signIn toLowerCase st email password reply).result.error
      = some (signInErrorMessage err.message) ∧
    (signIn toLowerCase st email password reply).state.user = none ∧
    (signIn toLowerCase st email password reply).state.profile = none ∧
    (signIn toLowerCase st email password reply).requests = [] := by
  simp [signIn, hrej, signInFailure, signInEnd, signInBegin, huser, hprofile]

theorem rejected_signIn_stays_unauthenticated_witness :
    (signIn (toLowerCase sigmaNeverFinal) initialState "bob@astracore.cz" "spatne"
        { user := none,
          error := some { code := "invalid_credentials",
                          message := "Invalid login credentials" } }).state.user = none ∧
    (signIn (toLowerCase sigmaNeverFinal) initialState "bob@astracore.cz" "spatne"
        { user := none,
          error := some { code := "invalid_credentials",
                          message := "Invalid login credentials" } }).requests = [] :=
  ⟨(rejected_signIn_stays_unauthenticated (toLowerCase sigmaNeverFinal) initialState "bob@astracore.cz"
      "spatne" { user := none, error := some { code := "invalid_credentials",
                                               message := "Invalid login credentials" } }
      { code := "invalid_credentials", message := "Invalid login credentials" }
      rfl rfl rfl).2.2.1,
   (rejected_signIn_stays_unauthenticated (toLowerCase sigmaNeverFinal) initialState "bob@astracore.cz"
      "spatne" { user := none, error := some { code := "invalid_credentials",
                                               message := "Invalid login credentials" } }
      { code := "invalid_credentials", message := "Invalid login credentials" }
      rfl rfl rfl).2.2.2.2⟩

/-! ## C18 -/

/-- C18: for every email and every provider outcome, `resetPassword` leaves
user, profile and loading as they were. -/
theorem resetPassword_leaves_state (toLowerCase : String → String) (st : AuthState)
    (origin email : String) (error : Option ApiError) :
    (resetPassword toLowerCase st origin email error).state.user = st.user ∧
    (resetPassword toLowerCase st origin email error).state.profile = st.profile ∧
    (resetPassword toLowerCase st origin email error).state.loading = st.loading := by
  cases error <;> simp [resetPassword]

/-! ## C19 -/

/-- C19: whatever `getSession` and the profile store answer, `initializeAuth`
ends with loading = false; when `getSession` answers with an error, user and
profile are left as they were, null at startup. -/
theorem initializeAuth_ends_loading (st : AuthState) (error : Option ApiError)
    (sessionUser : Option User) (now : String) (query insert : StoreReply) (err : ApiError) :
    (initializeAuthRun st error sessionUser now query insert).loading = false ∧
    (initializeAuthRun st (some err) sessionUser now query insert).user = st.user ∧
    (initializeAuthRun st (some err) sessionUser now query insert).profile = st.profile ∧
    (initializeAuthRun initialState (some err) sessionUser now query insert).user = none ∧
    (initializeAuthRun initialState (some err) sessionUser now query insert).profile = none := by
  refine ⟨?_, ?_, ?_, ?_, ?_⟩
  · cases error <;> cases sessionUser <;>
      simp [initializeAuthRun, initializeAuth, afterFetch]
  all_goals simp [initializeAuthRun, initializeAuth, initialState]

/-! ## C20 -/

/-- C20: the role sets of `EDIT_PROJECTS` and `VIEW_EMPLOYEES` are incomparable
(site_manager is in the first only, assistant in the second only), and a
site_manager is granted `EDIT_PROJECTS` and denied `VIEW_FINANCES`. -/
theorem permission_table_is_not_a_chain :
    PERMISSIONS.lookup "EDIT_PROJECTS" = some ["owner", "manager", "site_manager"] ∧
    PERMISSIONS.lookup "VIEW_EMPLOYEES" = some ["owner", "manager", "assistant"] ∧
    hasPermission (some [("role", .str "site_manager")]) "EDIT_PROJECTS" = .ok true ∧
    hasPermission (some [("role", .str "assistant")]) "EDIT_PROJECTS" = .ok false ∧
    hasPermission (some [("role", .str "assistant")]) "VIEW_EMPLOYEES" = .ok true ∧
    hasPermission (some [("role", .str "site_manager")]) "VIEW_EMPLOYEES" = .ok false ∧
    hasPermission (some [("role", .str "site_manager")]) "VIEW_FINANCES" = .ok false := by
  decide

/-! ### Tables -/

theorem mem_of_lookup {β : Type} (l : List (String × β)) (k : String) (v : β)
    (h : l.lookup k = some v) : (k, v) ∈ l := by
  induction l with
  | nil => simp at h
  | cons hd tl ih =>
    obtain ⟨a, b⟩ := hd
    rw [List.lookup_cons] at h
    by_cases hk : k = a
    · subst hk
      simp only [beq_self_eq_true, Option.some.injEq] at h
      subst h
      exact List.mem_cons_self _ _
    · have hb : (k == a) = false := by simp [hk]
      simp only [hb] at h
      exact List.mem_cons_of_mem _ (ih h)

/-! ### Navigation trees -/

theorem Sidebar.keeps_eq (p : String → Bool) (item : NavItem) :
    Sidebar.keeps p item = falsyOrGranted p item.entry := by
  unfold Sidebar.keeps falsyOrGranted nullOrGranted
  cases hperm : item.entry.permission with
  | none => simp [permissionFalsy]
  | some s => by_cases hs : permissionFalsy (some s) = true <;> simp [hs]

theorem MobileMenu.keeps_eq_sidebar (p : String → Bool) (item : NavItem) :
    MobileMenu.keeps p item = Sidebar.keeps p item := rfl

theorem Sidebar.filterByPermission_eq_filter_map (p : String → Bool) (items : List NavItem) :
    Sidebar.filterByPermission p items
      = (items.filter (fun item => falsyOrGranted p item.entry)).map (Sidebar.filterItem p) := by
  induction items with
  | nil => simp [Sidebar.filterByPermission]
  | cons item rest ih =>
    rw [Sidebar.filterByPermission, Sidebar.keeps_eq, ih]
    by_cases h : falsyOrGranted p item.entry = true
    · simp [h]
    · simp [h]

theorem Sidebar.filterItem_eq (p : String → Bool) (item : NavItem) :
    Sidebar.filterItem p item
      = .mk item.entry (item.children.map (Sidebar.filterByPermission p)) := by
  cases item with
  | mk e children =>
    cases children with
    | none => simp [Sidebar.filterItem, Sidebar.filterChildren, NavItem.entry, NavItem.children]
    | some l => simp [Sidebar.filterItem, Sidebar.filterChildren, NavItem.entry, NavItem.children]

theorem Sidebar.filterByPermission_append (p : String → Bool) (l1 l2 : List NavItem) :
    Sidebar.filterByPermission p (l1 ++ l2)
      = Sidebar.filterByPermission p l1 ++ Sidebar.filterByPermission p l2 := by
  simp [Sidebar.filterByPermission_eq_filter_map]

theorem listChains_append (l1 l2 : List NavItem) :
    listChains (l1 ++ l2) = listChains l1 ++ listChains l2 := by
  induction l1 with
  | nil => simp [listChains]
  | cons item rest ih => simp [listChains, ih]

theorem filter_chains_cons (p : String → Bool) (e : NavEntry) (chains : List (List NavEntry)) :
    (chains.map (fun chain => e :: chain)).filter (fun chain => chain.all (falsyOrGranted p))
      = if falsyOrGranted p e then
          (chains.filter (fun chain => chain.all (falsyOrGranted p))).map (fun chain => e :: chain)
        else [] := by
  induction chains with
  | nil => simp
  | cons c rest ih =>
    by_cases he : falsyOrGranted p e = true
    · by_cases hc : c.all (falsyOrGranted p) = true
      · simp only [he, if_true] at ih
        simp [List.filter_cons, he, hc, ih]
      · simp only [he, if_true] at ih
        have hc' : c.all (falsyOrGranted p) = false := by simpa using hc
        simp only [List.map_cons, List.filter_cons, List.all_cons, he, hc', Bool.and_false,
          if_true, Bool.true_and]
        simpa using ih
    · simp only [he] at ih
      simp only [Bool.false_eq_true, if_false] at ih ⊢
      simp [List.filter_cons, he, ih]

mutual
theorem Sidebar.chains_filterItem (p : String → Bool) :
    ∀ item : NavItem, falsyOrGranted p item.entry = true →
      itemChains (Sidebar.filterItem p item)
        = (itemChains item).filter (fun chain => chain.all (falsyOrGranted p))
  | .mk e children => fun h => by
    have he : falsyOrGranted p e = true := h
    rw [Sidebar.filterItem, itemChains, itemChains, Sidebar.chains_filterChildren p children,
      List.filter_cons, filter_chains_cons]
    simp [he]
theorem Sidebar.chains_filterChildren (p : String → Bool) :
    ∀ children : Option (List NavItem),
      childrenChains (Sidebar.filterChildren p children)
        = (childrenChains children).filter (fun chain => chain.all (falsyOrGranted p))
  | none => by simp [Sidebar.filterChildren, childrenChains]
  | some items => by
    rw [Sidebar.filterChildren, childrenChains, childrenChains,
      Sidebar.chains_filterByPermission p items]
theorem Sidebar.chains_filterByPermission (p : String → Bool) :
    ∀ items : List NavItem,
      listChains (Sidebar.filterByPermission p items)
        = (listChains items).filter (fun chain => chain.all (falsyOrGranted p))
  | [] => by simp [Sidebar.filterByPermission, listChains]
  | item :: rest => by
    rw [Sidebar.filterByPermission, Sidebar.keeps_eq, listChains, List.filter_append,
      ← Sidebar.chains_filterByPermission p rest]
    by_cases h : falsyOrGranted p item.entry = true
    · rw [if_pos h, listChains, Sidebar.chains_filterItem p item h]
    · rw [if_neg h]
      have hdrop : (itemChains item).filter (fun chain => chain.all (falsyOrGranted p)) = [] := by
        cases item with
        | mk e children =>
          have he : falsyOrGranted p e = false := by simpa [NavItem.entry] using h
          rw [itemChains, List.filter_cons, filter_chains_cons]
          simp [he]
      rw [hdrop, List.nil_append]
end

mutual
theorem MobileMenu.filterItem_eq_sidebar (p : String → Bool) :
    ∀ item : NavItem, MobileMenu.filterItem p item = Sidebar.filterItem p item
  | .mk e children => by
    rw [MobileMenu.filterItem, Sidebar.filterItem, MobileMenu.filterChildren_eq_sidebar p children]
theorem MobileMenu.filterChildren_eq_sidebar (p : String → Bool) :
    ∀ children : Option (List NavItem),
      MobileMenu.filterChildren p children = Sidebar.filterChildren p children
  | none => by rw [MobileMenu.filterChildren, Sidebar.filterChildren]
  | some items => by
    rw [MobileMenu.filterChildren, Sidebar.filterChildren,
      MobileMenu.filterByPermission_eq_sidebar p items]
theorem MobileMenu.filterByPermission_eq_sidebar (p : String → Bool) :
    ∀ items : List NavItem,
      MobileMenu.filterByPermission p items = Sidebar.filterByPermission p items
  | [] => by rw [MobileMenu.filterByPermission, Sidebar.filterByPermission]
  | item :: rest => by
    rw [MobileMenu.filterByPermission, Sidebar.filterByPermission, MobileMenu.keeps_eq_sidebar,
      MobileMenu.filterItem_eq_sidebar p item, MobileMenu.filterByPermission_eq_sidebar p rest]
end

/-! ### The comparator of multiSort -/

theorem compareBy_le_iff {α V : Type} [LinearOrder V] (resolve : α → String → V)
    (criteria : List Criterion) (a b : α) :
    compareBy resolve criteria a b ≤ 0 ↔ lexLE resolve criteria a b := by
  induction criteria with
  | nil => simp [compareBy, lexLE]
  | cons c rest ih =>
    unfold compareBy lexLE
    rcases lt_trichotomy (resolve a c.key) (resolve b c.key) with h | h | h
    · have h2 : ¬ resolve b c.key < resolve a c.key := not_lt.mpr (le_of_lt h)
      by_cases hasc : c.ascending = true
      · simp [h, hasc]
      · simp [h, h2, hasc, ne_of_lt h]
    · have h1 : ¬ resolve a c.key < resolve b c.key := by rw [h]; exact lt_irrefl _
      have h2 : ¬ resolve b c.key < resolve a c.key := by rw [h]; exact lt_irrefl _
      have h3 : ¬ resolve a c.key > resolve b c.key := h2
      rw [if_neg h1, if_neg h3, ih]
      by_cases hasc : c.ascending = true
      · simp [h, hasc]
      · simp [h, hasc]
    · have h1 : ¬ resolve a c.key < resolve b c.key := not_lt.mpr (le_of_lt h)
      have h3 : resolve a c.key > resolve b c.key := h
      rw [if_neg h1, if_pos h3]
      by_cases hasc : c.ascending = true
      · simp [h1, hasc, ne_of_gt h]
      · simp [h, hasc]

theorem tied_iff {α V : Type} [LinearOrder V] (resolve : α → String → V)
    (criteria : List Criterion) (a b : α) :
    tied resolve criteria a b = true ↔ ∀ c ∈ criteria, resolve a c.key = resolve b c.key := by
  simp [tied]

theorem lexLE_of_tied {α V : Type} [LinearOrder V] (resolve : α → String → V)
    (criteria : List Criterion) (a b : α)
    (h : ∀ c ∈ criteria, resolve a c.key = resolve b c.key) : lexLE resolve criteria a b := by
  induction criteria with
  | nil => trivial
  | cons c rest ih =>
    unfold lexLE
    exact Or.inr ⟨h c (List.mem_cons_self _ _),
      ih (fun c' hc' => h c' (List.mem_cons_of_mem _ hc'))⟩

theorem lexLE_total {α V : Type} [LinearOrder V] (resolve : α → String → V)
    (criteria : List Criterion) (a b : α) :
    lexLE resolve criteria a b ∨ lexLE resolve criteria b a := by
  induction criteria with
  | nil => exact Or.inl trivial
  | cons c rest ih =>
    unfold lexLE
    rcases lt_trichotomy (resolve a c.key) (resolve b c.key) with h | h | h
    · by_cases hasc : c.ascending = true
      · exact Or.inl (Or.inl (by simpa [hasc] using h))
      · exact Or.inr (Or.inl (by simpa [hasc] using h))
    · rcases ih with h' | h'
      · exact Or.inl (Or.inr ⟨h, h'⟩)
      · exact Or.inr (Or.inr ⟨h.symm, h'⟩)
    · by_cases hasc : c.ascending = true
      · exact Or.inr (Or.inl (by simpa [hasc] using h))
      · exact Or.inl (Or.inl (by simpa [hasc] using h))

theorem lexLE_trans {α V : Type} [LinearOrder V] (resolve : α → String → V)
    (criteria : List Criterion) (a b d : α)
    (hab : lexLE resolve criteria a b) (hbd : lexLE resolve criteria b d) :
    lexLE resolve criteria a d := by
  induction criteria with
  | nil => trivial
  | cons c rest ih =>
    unfold lexLE at hab hbd ⊢
    by_cases hasc : c.ascending = true
    · simp only [hasc, if_true] at hab hbd ⊢
      rcases hab with h1 | ⟨e1, r1⟩
      · rcases hbd with h2 | ⟨e2, _⟩
        · exact Or.inl (lt_trans h1 h2)
        · exact Or.inl (by rw [← e2]; exact h1)
      · rcases hbd with h2 | ⟨e2, r2⟩
        · exact Or.inl (by rw [e1]; exact h2)
        · exact Or.inr ⟨e1.trans e2, ih r1 r2⟩
    · simp only [hasc, Bool.false_eq_true, if_false] at hab hbd ⊢
      rcases hab with h1 | ⟨e1, r1⟩
      · rcases hbd with h2 | ⟨e2, _⟩
        · exact Or.inl (lt_trans h2 h1)
        · exact Or.inl (by rw [← e2]; exact h1)
      · rcases hbd with h2 | ⟨e2, r2⟩
        · exact Or.inl (by rw [e1]; exact h2)
        · exact Or.inr ⟨e1.trans e2, ih r1 r2⟩

/-! ### Stability of the insertion -/

theorem filter_orderedInsert {α : Type} (r : α → α → Prop) [DecidableRel r] (keep : α → Bool)
    (a : α) (h : keep a = true → ∀ b, keep b = true → r a b) (s : List α) :
    (s.orderedInsert r a).filter keep = if keep a then a :: s.filter keep else s.filter keep := by
  induction s with
  | nil => by_cases ha : keep a = true <;> simp [ha]
  | cons b s ih =>
    rw [List.orderedInsert]
    by_cases hr : r a b
    · rw [if_pos hr]
      by_cases ha : keep a = true <;> simp [List.filter_cons, ha]
    · rw [if_neg hr, List.filter_cons, ih]
      by_cases ha : keep a = true
      · have hb : keep b = false := by
          by_contra hb
          exact hr (h ha b (by simpa using hb))
        simp [ha, hb, List.filter_cons]
      · by_cases hb : keep b = true <;> simp [ha, hb, List.filter_cons]

theorem filter_insertionSort {α : Type} (r : α → α → Prop) [DecidableRel r] (keep : α → Bool)
    (h : ∀ a b, keep a = true → keep b = true → r a b) (l : List α) :
    (l.insertionSort r).filter keep = l.filter keep := by
  induction l with
  | nil => rfl
  | cons a l ih =>
    rw [List.insertionSort, filter_orderedInsert r keep a (fun ha b hb => h a b ha hb), ih]
    by_cases ha : keep a = true <;> simp [ha, List.filter_cons]

/-! ## C21 -/

theorem employee_not_in_table :
    ∀ entry ∈ PERMISSIONS, "employee" ∉ entry.2 := by
  decide

/-- C21: under the default profile of a first sign-in, whose role is employee,
`hasPermission('constructor')` raises a TypeError instead of returning false;
for the keys of the table, `VIEW_FINANCES` among them, it returns false. -/
theorem employee_inherited_key_raises :
    profileRole (some (newProfile "b-2" noon)) = .str "employee" ∧
    hasPermission (some (newProfile "b-2" noon)) "constructor"
      = .error (.typeError "allowedRoles.includes is not a function") ∧
    hasPermission (some (newProfile "b-2" noon)) "VIEW_FINANCES" = .ok false ∧
    (∀ p ∈ permissionKeys, hasPermission (some (newProfile "b-2" noon)) p = .ok false) := by
  decide

/-! ## C22 -/

/-- C22: under a loaded profile whose role is owner, `hasPermission(p)` is
true for every key p of the table, `VIEW_FINANCES` and `SYSTEM_SETTINGS`
among them. -/
theorem owner_holds_every_permission (profile : JsObj) (p : String)
    (hrole : profile.get "role" = .str "owner") (hp : p ∈ permissionKeys) :
    hasPermission (some profile) p = .ok true := by
  obtain ⟨allowed, hl, hres⟩ :=
    hasPermission_eq_table_membership "owner" p profile (by decide) hp hrole
  have hall : ∀ entry ∈ PERMISSIONS, "owner" ∈ entry.2 := by decide
  have hmem : (p, allowed) ∈ PERMISSIONS := mem_of_lookup PERMISSIONS p allowed hl
  rw [hres]
  simp [hall (p, allowed) hmem]

theorem owner_holds_every_permission_witness :
    hasPermission (some aliceRow) "VIEW_FINANCES" = .ok true ∧
    hasPermission (some aliceRow) "SYSTEM_SETTINGS" = .ok true :=
  ⟨owner_holds_every_permission aliceRow "VIEW_FINANCES" (by decide) (by decide),
   owner_holds_every_permission aliceRow "SYSTEM_SETTINGS" (by decide) (by decide)⟩

/-! ## C23 -/

/-- C23: `isAdmin()` is true exactly when a profile is loaded and its role is
the string owner or the string manager. -/
theorem isAdmin_iff_owner_or_manager (profile : Option JsObj) :
    isAdmin profile = true ↔
      ∃ p, profile = some p ∧ (p.get "role" = .str "owner" ∨ p.get "role" = .str "manager") := by
  have ho : userRole "OWNER" = .str "owner" := by decide
  have hm : userRole "MANAGER" = .str "manager" := by decide
  unfold isAdmin
  rw [ho, hm]
  cases profile with
  | none => simp [profileRole]
  | some p => simp [profileRole]

/-! ## C24 -/

/-- C24 as stated fails: an item whose permission is the empty string is kept
although its permission is neither null nor granted (`hasPermission('')` is
false for an owner). -/
theorem blank_permission_item_is_kept :
    navIds (Sidebar.filterByPermission (grantedTo (some aliceRow)) blankPermissionTree)
      = [["napoveda"]] ∧
    hasPermission (some aliceRow) "" = .ok false ∧
    navIds (blankPermissionTree.filter
        (fun item => nullOrGranted (grantedTo (some aliceRow)) item.entry)) = [] := by
  decide

/-- C24, amended: for every navigation tree and every permission predicate,
`filterByPermission` returns, in their original order, exactly the items whose
permission is falsy (null or the empty string) or granted, each with the same
filter applied to its children; an item at any depth is in the result if and
only if it and each of its ancestors has a falsy or granted permission.  The
function is total: the recursion ends on every tree. -/
theorem filterByPermission_keeps_falsy_or_granted (hasPermission : String → Bool)
    (items : List NavItem) :
    Sidebar.filterByPermission hasPermission items
      = (items.filter (fun item => falsyOrGranted hasPermission item.entry)).map
          (fun item =>
            .mk item.entry (item.children.map (Sidebar.filterByPermission hasPermission))) ∧
    listChains (Sidebar.filterByPermission hasPermission items)
      = (listChains items).filter
          (fun chain => chain.all (falsyOrGranted hasPermission)) := by
  refine ⟨?_, Sidebar.chains_filterByPermission hasPermission items⟩
  rw [Sidebar.filterByPermission_eq_filter_map]
  apply List.map_congr_left
  intro item _
  exact Sidebar.filterItem_eq hasPermission item

/-! ## C25 -/

/-- C25: for every permission predicate, the items `MobileMenu` leaves visible
are the visible main items of `Sidebar` followed by its visible bottom items,
with the same nesting and order; so are their ids. -/
theorem mobileMenu_shows_sidebar_navigation (hasPermission : String → Bool) :
    MobileMenu.visibleNavItems hasPermission
      = Sidebar.visibleNavItems hasPermission ++ Sidebar.visibleBottomItems hasPermission ∧
    navIds (MobileMenu.visibleNavItems hasPermission)
      = navIds (Sidebar.visibleNavItems hasPermission)
        ++ navIds (Sidebar.visibleBottomItems hasPermission) := by
  have hitems : MobileMenu.navigationItems
      = Sidebar.navigationItems ++ Sidebar.bottomNavigationItems := rfl
  have hvis : MobileMenu.visibleNavItems hasPermission
      = Sidebar.visibleNavItems hasPermission ++ Sidebar.visibleBottomItems hasPermission := by
    unfold MobileMenu.visibleNavItems Sidebar.visibleNavItems Sidebar.visibleBottomItems
    rw [MobileMenu.filterByPermission_eq_sidebar, hitems, Sidebar.filterByPermission_append]
  refine ⟨hvis, ?_⟩
  rw [hvis]
  simp [navIds, listChains_append]

/-! ## C26 -/

/-- C26: `truncateText('abcdefghij', 5)` returns `abcde...`, eight characters
for a maximum length of five; a text that is longer than the maximum comes back
with the whole suffix appended to its first n characters. -/
theorem truncateText_exceeds_maximum :
    truncateText (some (utf16 "abcdefghij")) 5 none = utf16 "abcde..." ∧
    (truncateText (some (utf16 "abcdefghij")) 5 none).length = 8 ∧
    ¬ (truncateText (some (utf16 "abcdefghij")) 5 none).length ≤ 5 ∧
    truncateText (some (utf16 "abcde")) 5 none = utf16 "abcde" ∧
    truncateText none 5 none = utf16 "" ∧
    truncateText (some (utf16 "")) 5 none = utf16 "" := by
  decide

theorem truncateText_counts_code_units :
    (utf16 "a😀bc").length = 5 ∧
    truncateText (some (utf16 "a😀bc")) 4 none = utf16 "a😀b..." ∧
    truncateText (some (utf16 "a😀bc")) 5 none = utf16 "a😀bc" := by
  decide

theorem truncateText_length (text suffix : List Nat) (n : Nat) (h : n < text.length) :
    (truncateText (some text) n (some suffix)).length = n + suffix.length := by
  have hne : text.isEmpty = false := by
    cases text with
    | nil => simp at h
    | cons a l => rfl
  have hle : ¬ text.length ≤ n := by omega
  simp [truncateText, hne, hle, List.length_take]
  omega

/-! ## C27 -/

/-- C27: for every array and every list of criteria over values with a total
order, the array `multiSort` returns is a permutation of the input, is sorted
lexicographically by the criteria in the order given (a criterion is ascending
when its direction is `asc` or omitted, descending otherwise), keeps the
elements that tie on every criterion in their input order, and the argument
array is left as it was. -/
theorem multiSort_sorts_stably {α V : Type} [LinearOrder V] (resolve : α → String → V)
    (array : List α) (criteria : List Criterion) :
    List.Perm (multiSort resolve array criteria).returned array ∧
    List.Pairwise (lexLE resolve criteria) (multiSort resolve array criteria).returned ∧
    (∀ x, (multiSort resolve array criteria).returned.filter (tied resolve criteria x)
        = array.filter (tied resolve criteria x)) ∧
    (multiSort resolve array criteria).array = array := by
  haveI htotal : IsTotal α (fun a b => compareBy resolve criteria a b ≤ 0) :=
    ⟨fun a b => by
      rcases lexLE_total resolve criteria a b with h | h
      · exact Or.inl ((compareBy_le_iff resolve criteria a b).mpr h)
      · exact Or.inr ((compareBy_le_iff resolve criteria b a).mpr h)⟩
  haveI htrans : IsTrans α (fun a b => compareBy resolve criteria a b ≤ 0) :=
    ⟨fun a b d hab hbd =>
      (compareBy_le_iff resolve criteria a d).mpr
        (lexLE_trans resolve criteria a b d
          ((compareBy_le_iff resolve criteria a b).mp hab)
          ((compareBy_le_iff resolve criteria b d).mp hbd))⟩
  refine ⟨?_, ?_, ?_, rfl⟩
  · exact List.perm_insertionSort _ array
  · have hs := List.sorted_insertionSort (fun a b => compareBy resolve criteria a b ≤ 0) array
    exact List.Pairwise.imp (fun {a b} h => (compareBy_le_iff resolve criteria a b).mp h) hs
  · intro x
    apply filter_insertionSort
    intro a b ha hb
    rw [tied_iff] at ha hb
    exact (compareBy_le_iff resolve criteria a b).mpr
      (lexLE_of_tied resolve criteria a b (fun c hc => (ha c hc).symm.trans (hb c hc)))

theorem multiSort_people :
    (multiSort ageOf people [{ key := "age", direction := none }]).returned
      = [("Emil", 25), ("Adam", 30), ("Bara", 30), ("Dana", 41), ("Cyril", 41)] ∧
    (multiSort ageOf people [{ key := "age", direction := some "desc" }]).returned
      = [("Dana", 41), ("Cyril", 41), ("Adam", 30), ("Bara", 30), ("Emil", 25)] := by
  decide

/-! ## C28 -/

/-- C28: under a loaded profile with the unrecognised role admin,
`hasPermission('constructor')` raises a TypeError instead of returning false;
for every key of the table it returns false, and with the empty string as role
it returns false for every argument. -/
theorem unrecognised_role_inherited_key_raises :
    "admin" ∉ roleValues ∧
    hasPermission (some [("id", .str "u9"), ("role", .str "admin")]) "constructor"
      = .error (.typeError "allowedRoles.includes is not a function") ∧
    (∀ p ∈ permissionKeys,
      hasPermission (some [("id", .str "u9"), ("role", .str "admin")]) p = .ok false) ∧
    hasPermission (some [("id", .str "u9"), ("role", .str "")]) "constructor" = .ok false := by
  decide

/-! ## C29 -/

/-- C29: `signIn` returns success: true, with the provider's user, exactly when
the provider returned no error and a user; otherwise it returns success: false
with an error message; on every path the loading flag is false at the end. -/
theorem signIn_success_iff (toLowerCase : String → String) (st : AuthState)
    (email password : String) (reply : SignInReply) :
    ((signIn toLowerCase st email password reply).result.success = true ↔
      reply.error = none ∧ ∃ u, reply.user = some u) ∧
    ((signIn toLowerCase st email password reply).result.success = true →
      (signIn toLowerCase st email password reply).result.user = reply.user ∧
      (signIn toLowerCase st email password reply).result.error = none) ∧
    ((signIn toLowerCase st email password reply).result.success = false →
      (signIn toLowerCase st email password reply).result.user = none ∧
      ∃ msg, (signIn toLowerCase st email password reply).result.error = some msg) ∧
    (signIn toLowerCase st email password reply).state.loading = false := by
  cases he : reply.error with
  | some e => simp [signIn, he, signInFailure, signInEnd, signInBegin]
  | none =>
    cases hu : reply.user with
    | none => simp [signIn, he, hu, signInFailure, signInEnd, signInBegin]
    | some u => simp [signIn, he, hu, signInEnd, signInBegin]

theorem signIn_success_iff_witness :
    (signIn (toLowerCase sigmaNeverFinal) initialState "bob@astracore.cz" "heslo"
        { user := some bob, error := none }).result.user = some bob ∧
    (signIn (toLowerCase sigmaNeverFinal) initialState "bob@astracore.cz" "heslo"
        { user := some bob, error := none }).result.error = none :=
  (signIn_success_iff (toLowerCase sigmaNeverFinal) initialState "bob@astracore.cz" "heslo"
    { user := some bob, error := none }).2.1 (by decide)

/-! ## C30 -/

/-- C30: every role listed in the `PERMISSIONS` table is one of the five values
of `USER_ROLES`, no role list is empty and no role occurs twice in a list. -/
theorem permissions_table_well_formed :
    ∀ entry ∈ PERMISSIONS,
      (∀ role ∈ entry.2, role ∈ roleValues) ∧ entry.2 ≠ [] ∧ entry.2.Nodup := by
  decide

theorem permissions_table_well_formed_witness :
    (∀ role ∈ ["owner", "manager", "site_manager"], role ∈ roleValues) ∧
    ["owner", "manager", "site_manager"] ≠ [] ∧
    ["owner", "manager", "site_manager"].Nodup :=
  permissions_table_well_formed ("EDIT_PROJECTS", ["owner", "manager", "site_manager"])
    (by decide)

end AstraCore
